import Mathlib

/-!
Verification development for the COVID-19 vaccine-allocation simulator
(`VaccineAllocation/SimModel.py` and `VaccineAllocation/OptTools.py`).

The embedding uses exact rational arithmetic (`ℚ`) in place of IEEE floats,
`Fin A → Fin L → ℚ` grids in place of `(A, L)` numpy arrays, and explicit
state passing in place of mutation.  The per-day transition engine
(`SimReplication.simulate_t`), the daily driver
(`SimReplication.simulate_time_period`), the vaccination-flow redistribution
pass, `compute_feasibility`, `compute_rsq`, `reset`, `init_rng`,
`get_binomial_transition_quantity`, `thresholds_generator` and
`get_sample_paths` are translated directly from the source.

Code of the repository that lives in modules not present under the
translated sources (`SimObjects.py`, `DataObjects.py`, `InputOutputTools.py`:
the `VaccineGroup`, `MultiTierPolicy`, `EpiSetup`, `VariantPool` and
`Vaccine` classes) is modelled from the specification where the claims need
it; each such definition carries a doc comment saying so.

Random binomial sampling (numpy `Generator.binomial`) is external to the
repository; it is modelled by an arbitrary state-threaded function
`BinomFn`, so theorems quantified over it cover every possible random
stream.  When no generator is attached (`rng = none`) the engine computes
the deterministic expectation `n * p`, exactly as in the source.
-/

/-- An `(A, L)` numpy array of floats: one rational per (age group, risk group) cell. -/
abbrev Grid (A L : ℕ) : Type := Fin A → Fin L → ℚ

/-- Sum of all entries of a grid, as in `np.sum` over an `(A, L)` array. -/
def gridTotal {A L : ℕ} (g : Grid A L) : ℚ := ∑ a, ∑ l, g a l

/-- Shape of the effective contact/transmission object `phi_t` returned by
`epi.effective_phi`: indexed by `(a, l, a2, l2)`, matching the broadcasting
in `SimModel.simulate_t` lines 400-412 where the day's `phi_t` multiplies the
infectious totals of cell `(a2, l2)` and the result is summed over axes (2, 3). -/
abbrev Phi (A L : ℕ) : Type := Fin A → Fin L → Fin A → Fin L → ℚ

/-- One vaccine group's compartments and tracking counters (class
`VaccineGroup` of `SimObjects.py`; the fields are exactly
`SimReplication.state_vars` and `SimReplication.tracking_vars`).
The state fields hold the current values (`_X[_t]` within a day);
the tracking fields hold the day's accumulated sums across sub-steps
(the source keeps per-sub-step buffers `_X` and sums them at day end,
which is equivalent). -/
structure GroupState (A L : ℕ) where
  S : Grid A L
  E : Grid A L
  IA : Grid A L
  IY : Grid A L
  PA : Grid A L
  PY : Grid A L
  R : Grid A L
  D : Grid A L
  IH : Grid A L
  ICU : Grid A L
  IYIH : Grid A L
  IYICU : Grid A L
  IHICU : Grid A L
  ToICU : Grid A L
  ToIHT : Grid A L
  ToICUD : Grid A L
  ToIYD : Grid A L
  ToIA : Grid A L
  ToIY : Grid A L

/-- Sum of the ten state compartments of one group at one `(a, l)` cell;
the quantity whose grand total the conservation assertion of
`simulate_time_period` (SimModel.py lines 290-305) compares with `sum(N)`. -/
def cell_total {A L : ℕ} (s : GroupState A L) (a : Fin A) (l : Fin L) : ℚ :=
  s.S a l + s.E a l + s.IA a l + s.IY a l + s.PA a l + s.PY a l +
    s.R a l + s.D a l + s.IH a l + s.ICU a l

/-- Reset the per-day tracking buffers to zero (SimModel.py lines 691-692,
moved to the start of the day, which is equivalent). -/
def zero_tracking {A L : ℕ} (s : GroupState A L) : GroupState A L :=
  { s with
    IYIH := 0
    IYICU := 0
    IHICU := 0
    ToICU := 0
    ToIHT := 0
    ToICUD := 0
    ToIYD := 0
    ToIA := 0
    ToIY := 0 }

/-- Per-vaccine-group quantities entering one simulated day of
`simulate_t`: the efficacy reductions `v_beta_reduct`, `v_tau_reduct`
(fields of `VaccineGroup`, possibly variant-updated for the day) and the
group-dependent transition probabilities `rate_IYR`, `rate_IYD`,
`rate_IYH`, `rate_IYICU` computed in SimModel.py lines 465-506 by
`discrete_approx` from `epi.pi`, `epi.Eta`, `epi.gamma_IY`,
`epi.alpha_IYD`, `epi.pIH` and `v_pi_reduct`. -/
structure GroupParams (A L : ℕ) where
  beta_reduct : ℚ
  tau_reduct : ℚ
  rate_IYR : Grid A L
  rate_IYD : Grid A L
  rate_IYH : Grid A L
  rate_IYICU : Grid A L

/-- The effective epidemiological quantities of one simulated day, after the
deep copy of `epi_rand`, the variant update (SimModel.py lines 345-357) and
the conversion of continuous rates to sub-step transition probabilities by
`discrete_approx` (lines 377-387).  `omega_PY`, `omega_PA`, `omega_IA`,
`omega_IY`, `beta`, `tau` are the fields of `EpiSetup` read directly in
lines 400-450; the `rate_*` fields are the probabilities computed in lines
377-387 and `rate_immune` is `discrete_approx(immune_evasion, step_size)`. -/
structure EpiDay (A L : ℕ) where
  omega_PY : Fin A → ℚ
  omega_PA : Fin A → ℚ
  omega_IA : ℚ
  omega_IY : ℚ
  beta : ℚ
  tau : ℚ
  rate_E : Grid A L
  rate_IAR : Grid A L
  rate_PAIA : Grid A L
  rate_PYIY : Grid A L
  rate_IHICU : Grid A L
  rate_IHR : Grid A L
  rate_ICUD : Grid A L
  rate_ICUR : Grid A L
  rate_immune : ℚ
  gp : Fin 4 → GroupParams A L

/-- An intervention tier (one entry of `policy.tiers`, SimModel.py lines
336-340): school-closure flag, cocooning coefficient, transmission
reduction and daily cost. -/
structure Tier where
  school_closure : Bool
  cocooning : ℚ
  transmission_reduction : ℚ
  daily_cost : ℚ
  deriving DecidableEq

/-- Modelled from the spec: the `MultiTierPolicy` class of `SimObjects.py`
(not among the translated sources).  It owns a fixed ordered list of tiers,
the threshold 5-tuple flattened to a list, and the day-indexed tier history
appended to by each call. -/
structure MultiTierPolicy where
  tiers : List Tier
  lockdown_thresholds : List ℚ
  tier_history : List ℕ
  deriving DecidableEq

/-- Modelled from the spec: the monitored statistic of the threshold policy,
a 7-day average of new hospital admissions (`ToIHT` history) summed over
age and risk groups. -/
def moving_avg_ToIHT {A L : ℕ} (hist : List (Grid A L)) : ℚ :=
  (((hist.drop (hist.length - 7)).map gridTotal).sum) / 7

/-- Modelled from the spec: tier selection of the threshold policy — the
tier with the highest threshold not exceeded by the monitored statistic,
ties broken toward the higher index. -/
def select_tier (thresholds : List ℚ) (stat : ℚ) : ℕ :=
  (List.range thresholds.length).foldl
    (fun acc i => if thresholds.getD i 0 ≤ stat then i else acc) 0

/-- Modelled from the spec: `MultiTierPolicy.__call__` — observe the recent
outcome histories, decide the tier active for day `t` and append it to the
tier history.  The unused history arguments mirror the call site
`self.policy(t, self.ToIHT_history, self.IH_history, self.ToIY_history,
self.ICU_history)` in SimModel.py lines 329-335. -/
def policy_call {A L : ℕ} (p : MultiTierPolicy) (_t : ℕ)
    (ToIHT_hist _IH_hist _ToIY_hist _ICU_hist : List (Grid A L)) : MultiTierPolicy :=
  { p with tier_history :=
      p.tier_history ++ [select_tier p.lockdown_thresholds (moving_avg_ToIHT ToIHT_hist)] }

/-- Modelled from the spec: `MultiTierPolicy.reset` — clear the tier history
so the policy object can be reused across independent replications. -/
def policy_reset (p : MultiTierPolicy) : MultiTierPolicy :=
  { p with tier_history := [] }

/-- Fallback tier used when indexing `policy.tiers`; the source indexes
directly and the configurations in the repository always have the tier
present. -/
def defaultTier : Tier := ⟨false, 0, 0, 0⟩

/-- The ordered vaccine-status flow arcs of the four vaccine groups
(`init_vaccine_groups`, SimModel.py lines 139-169, and the `v_in` / `v_out`
wiring of `VaccineGroup` in `SimObjects.py`, modelled from the spec):
arc 0 moves unvaccinated (group 0) to first-dose (group 1), arc 1 moves
first-dose (group 1) to second-dose (group 2), arc 2 is the booster moving
waned (group 3) back to second-dose (group 2).  `edge_src e` is the group
named by `vaccine_allocation[vaccine_type][0]["from"]`. -/
def edge_src : Fin 3 → Fin 4
  | 0 => 0
  | 1 => 1
  | 2 => 3

/-- Outgoing arcs `v_out` of each vaccine group (modelled from the spec, see
`edge_src`). -/
def v_out_list : Fin 4 → List (Fin 3)
  | 0 => [0]
  | 1 => [1]
  | 2 => []
  | 3 => [2]

/-- Incoming arcs `v_in` of each vaccine group (modelled from the spec, see
`edge_src`). -/
def v_in_list : Fin 4 → List (Fin 3)
  | 0 => []
  | 1 => [0]
  | 2 => [1, 2]
  | 3 => []

/-- The `City` instance together with the external collaborators a
replication reads (`Vaccine`, calendar, variant pool).  Fields that the
translated sources compute through classes of `DataObjects.py` /
`SimObjects.py` are modelled from the spec as day-indexed inputs:
`effectiveEpi` packages the per-day deep copy plus variant update of the
sampled parameter set and the `discrete_approx` conversions (SimModel.py
lines 317-387), `effective_phi` is `EpiSetup.effective_phi`,
`vaccine_event`, `vaccine_assignment` and `vaccine_eligible` are
`Vaccine.event_lookup`, `vaccine_allocation[...]["assignment"]` and
`Vaccine.get_num_eligible`, and `initial_S` … `initial_ICU` are the
initial compartment values `VaccineGroup.__init__` reads from the instance. -/
structure City (A L : ℕ) (σ ε : Type) where
  N : Grid A L
  icu : ℚ
  step_size : ℕ
  real_IH_history : List ℚ
  fixed_transmission_reduction : ℕ → Option ℚ
  schools_closed : ℕ → Bool
  fixed_cocooning : ℕ → ℚ
  day_type : ℕ → ℕ
  effective_phi : Bool → ℚ → ℚ → ℕ → Phi A L
  effectiveEpi : ε → ℕ → EpiDay A L
  vaccine_start_time : ℕ
  vaccine_event : ℕ → Fin 3 → Bool
  vaccine_assignment : ℕ → Fin 3 → Grid A L
  vaccine_eligible : ℕ → Fin 3 → Grid A L
  initial_S : Fin 4 → Grid A L
  initial_E : Fin 4 → Grid A L
  initial_IA : Fin 4 → Grid A L
  initial_IY : Fin 4 → Grid A L
  initial_PA : Fin 4 → Grid A L
  initial_PY : Fin 4 → Grid A L
  initial_R : Fin 4 → Grid A L
  initial_D : Fin 4 → Grid A L
  initial_IH : Fin 4 → Grid A L
  initial_ICU : Fin 4 → Grid A L
  sample_epi : Option σ → ε

/-- `self.t_historical_data_end = len(self.instance.real_IH_history)`
(SimModel.py line 40). -/
def t_historical_data_end {A L : ℕ} {σ ε : Type} (city : City A L σ ε) : ℕ :=
  city.real_IH_history.length

/-- `SimReplication.init_vaccine_groups` (SimModel.py lines 139-169):
create the four vaccine groups with their initial compartment values
(the compartment initialisation itself lives in `VaccineGroup.__init__`
of `SimObjects.py` and is modelled from the spec as instance-supplied
initial conditions); tracking buffers start at zero. -/
def init_vaccine_groups {A L : ℕ} {σ ε : Type} (city : City A L σ ε) :
    Fin 4 → GroupState A L :=
  fun g =>
    { S := city.initial_S g
      E := city.initial_E g
      IA := city.initial_IA g
      IY := city.initial_IY g
      PA := city.initial_PA g
      PY := city.initial_PY g
      R := city.initial_R g
      D := city.initial_D g
      IH := city.initial_IH g
      ICU := city.initial_ICU g
      IYIH := 0
      IYICU := 0
      IHICU := 0
      ToICU := 0
      ToIHT := 0
      ToICUD := 0
      ToIYD := 0
      ToIA := 0
      ToIY := 0 }

/-- One simulation replication (`SimReplication`): the four vaccine groups,
the eight outcome history lists (`history_vars`, SimModel.py lines 59-69),
the cursor `next_t`, the optional policy, the optional random-generator
state and the sampled parameter set `epi_rand`. -/
structure Replication (A L : ℕ) (σ ε : Type) where
  vaccine_groups : Fin 4 → GroupState A L
  ICU_history : List (Grid A L)
  IH_history : List (Grid A L)
  D_history : List (Grid A L)
  R_history : List (Grid A L)
  ToIHT_history : List (Grid A L)
  ToIY_history : List (Grid A L)
  ToICUD_history : List (Grid A L)
  ToIYD_history : List (Grid A L)
  next_t : ℕ
  policy : Option MultiTierPolicy
  rng : Option σ
  epi_rand : ε

/-- Total population currently held in all compartments of all four vaccine
groups; `np.sum(self.S + self.E + ... + self.ICU)` of SimModel.py lines
290-301 after aggregation across groups. -/
def totalPop {A L : ℕ} (groups : Fin 4 → GroupState A L) : ℚ :=
  ∑ g, ∑ a, ∑ l, cell_total (groups g) a l

/-- `SimReplication.init_rng` (SimModel.py lines 89-106).  Python truthiness
of the seed is `s ≠ 0` for an integer and false for `None`; a generator
`np.random.default_rng(s)` (modelled by `mkGen`) is created only when the
seed is truthy and non-negative. -/
def init_rng {σ : Type} (mkGen : ℤ → σ) (rng_seed : Option ℤ) : Option σ :=
  match rng_seed with
  | none => none
  | some s => if s ≠ 0 then (if 0 ≤ s then some (mkGen s) else none) else none

/-- `SimReplication.__init__` (SimModel.py lines 23-87): store the
arguments, initialise the generator from the seed, sample the parameter
set, create the vaccine groups, empty the histories and set `next_t = 0`. -/
def SimReplication_init {A L : ℕ} {σ ε : Type} (city : City A L σ ε)
    (policy : Option MultiTierPolicy) (rng_seed : Option ℤ) (mkGen : ℤ → σ) :
    Replication A L σ ε :=
  let rng := init_rng mkGen rng_seed
  { vaccine_groups := init_vaccine_groups city
    ICU_history := []
    IH_history := []
    D_history := []
    R_history := []
    ToIHT_history := []
    ToIY_history := []
    ToICUD_history := []
    ToIYD_history := []
    next_t := 0
    policy := policy
    rng := rng
    epi_rand := city.sample_epi rng }

/-- `SimReplication.reset` (SimModel.py lines 694-704): recreate the vaccine
groups from the instance, empty every history list and set `next_t` to 0.
No other attribute is touched. -/
def SimReplication_reset {A L : ℕ} {σ ε : Type} (city : City A L σ ε)
    (rep : Replication A L σ ε) : Replication A L σ ε :=
  { rep with
    vaccine_groups := init_vaccine_groups city
    ICU_history := []
    IH_history := []
    D_history := []
    R_history := []
    ToIHT_history := []
    ToIY_history := []
    ToICUD_history := []
    ToIYD_history := []
    next_t := 0 }

/-- An abstract model of numpy's `Generator.binomial` applied elementwise to
`(A, L)` arrays: given the generator state, the (rounded) source counts and
the transition probabilities, it returns the drawn quantities and the
advanced generator state.  Quantifying over this function covers every
possible random stream. -/
abbrev BinomFn (σ : Type) (A L : ℕ) : Type := σ → Grid A L → Grid A L → Grid A L × σ

/-- Elementwise `np.round` of the source counts (`nInt = np.round(n)`,
SimModel.py line 712). -/
def gridRound {A L : ℕ} (n : Grid A L) : Grid A L := fun a l => ((round (n a l) : ℤ) : ℚ)

/-- `SimReplication.get_binomial_transition_quantity` (SimModel.py lines
706-715, with the default `round_opt = 1` used by every call in
`simulate_t`): the deterministic expectation `n * p` when no generator is
attached, else a binomial draw from the rounded counts, threading the
generator state. -/
def get_binomial_transition_quantity {σ : Type} {A L : ℕ} (binom : BinomFn σ A L)
    (rng : Option σ) (n p : Grid A L) : Grid A L × Option σ :=
  match rng with
  | none => (fun a l => n a l * p a l, none)
  | some s =>
    let r := binom s (gridRound n) p
    (r.1, some r.2)

/-- The body of the per-sub-step loop of `simulate_t` for one vaccine group
(SimModel.py lines 394-555).  `immuneGroup` is the test
`v_groups.v_name in {"first_dose", "second_dose"}`.  Returns the group's
next-sub-step state, the mass this group sends to the waned group's
Susceptible compartment in this sub-step (`_dSR + immune_escape_R`;
`_dSR = 0` for the other groups), and the advanced generator state.
Draws happen in exactly the source order. -/
def processGroup {σ : Type} {A L : ℕ} (binom : BinomFn σ A L) (e : EpiDay A L)
    (p : GroupParams A L) (dSprob : Grid A L) (immuneGroup : Bool)
    (s : GroupState A L) (rng : Option σ) :
    GroupState A L × Grid A L × Option σ :=
  let pS : Grid A L :=
    if immuneGroup then fun a l => e.rate_immune + (1 - p.beta_reduct) * dSprob a l
    else fun a l => (1 - p.beta_reduct) * dSprob a l
  let r1 := get_binomial_transition_quantity binom rng s.S pS
  let dS := r1.1
  let dSE : Grid A L :=
    if immuneGroup then
      fun a l =>
        if dS a l = 0 then 0
        else dS a l * ((1 - p.beta_reduct) * dSprob a l) /
          (e.rate_immune + (1 - p.beta_reduct) * dSprob a l)
    else dS
  let r2 := get_binomial_transition_quantity binom r1.2 s.E e.rate_E
  let E_out := r2.1
  let dSR : Grid A L := fun a l => dS a l - dSE a l
  let r3 := get_binomial_transition_quantity binom r2.2 s.R (fun _ _ => e.rate_immune)
  let immune_escape_R := r3.1
  let r4 := get_binomial_transition_quantity binom r3.2 E_out
    (fun _ _ => e.tau * (1 - p.tau_reduct))
  let EPY := r4.1
  let r5 := get_binomial_transition_quantity binom r4.2 s.PY e.rate_PYIY
  let PYIY := r5.1
  let EPA : Grid A L := fun a l => E_out a l - EPY a l
  let r6 := get_binomial_transition_quantity binom r5.2 s.PA e.rate_PAIA
  let PAIA := r6.1
  let r7 := get_binomial_transition_quantity binom r6.2 s.IA e.rate_IAR
  let IAR := r7.1
  let r8 := get_binomial_transition_quantity binom r7.2 s.IY p.rate_IYR
  let IYR := r8.1
  let r9 := get_binomial_transition_quantity binom r8.2
    (fun a l => s.IY a l - IYR a l) p.rate_IYD
  let IYD := r9.1
  let r10 := get_binomial_transition_quantity binom r9.2
    (fun a l => s.IY a l - IYR a l - IYD a l) p.rate_IYH
  let IYIH := r10.1
  let r11 := get_binomial_transition_quantity binom r10.2
    (fun a l => s.IY a l - IYR a l - IYD a l - IYIH a l) p.rate_IYICU
  let IYICU := r11.1
  let r12 := get_binomial_transition_quantity binom r11.2 s.IH e.rate_IHR
  let IHR := r12.1
  let r13 := get_binomial_transition_quantity binom r12.2
    (fun a l => s.IH a l - IHR a l) e.rate_IHICU
  let IHICU := r13.1
  let r14 := get_binomial_transition_quantity binom r13.2 s.ICU e.rate_ICUR
  let ICUR := r14.1
  let r15 := get_binomial_transition_quantity binom r14.2
    (fun a l => s.ICU a l - ICUR a l) e.rate_ICUD
  let ICUD := r15.1
  ({ S := fun a l => s.S a l - dS a l
     E := fun a l => s.E a l + dSE a l - E_out a l
     IA := fun a l => s.IA a l + PAIA a l - IAR a l
     IY := fun a l => s.IY a l + PYIY a l - IYR a l - IYD a l - IYIH a l - IYICU a l
     PA := fun a l => s.PA a l + EPA a l - PAIA a l
     PY := fun a l => s.PY a l + EPY a l - PYIY a l
     R := fun a l => s.R a l + IHR a l + IYR a l + IAR a l + ICUR a l - immune_escape_R a l
     D := fun a l => s.D a l + ICUD a l + IYD a l
     IH := fun a l => s.IH a l + IYIH a l - IHR a l - IHICU a l
     ICU := fun a l => s.ICU a l + IHICU a l - ICUD a l - ICUR a l + IYICU a l
     IYIH := fun a l => s.IYIH a l + IYIH a l
     IYICU := fun a l => s.IYICU a l + IYICU a l
     IHICU := fun a l => s.IHICU a l + IHICU a l
     ToICU := fun a l => s.ToICU a l + IYICU a l + IHICU a l
     ToIHT := fun a l => s.ToIHT a l + IYICU a l + IYIH a l
     ToICUD := fun a l => s.ToICUD a l + ICUD a l
     ToIYD := fun a l => s.ToIYD a l + IYD a l
     ToIA := fun a l => s.ToIA a l + PAIA a l
     ToIY := fun a l => s.ToIY a l + PYIY a l },
   fun a l => dSR a l + immune_escape_R a l,
   r15.2)

/-- The force-of-infection exposure probability `dSprob_sum` (SimModel.py
lines 396-413), identical for the four groups: for each cell `(a, l)`,
sum over all groups and source cells `(a2, l2)` of the infectious totals
(`omega`-weighted `PY`, `PA`, `IA`, `IY`) scaled by
`beta * phi_t / step_size` and normalised by the age-group population. -/
def dSprob_sum {A L : ℕ} (e : EpiDay A L) (phi : Phi A L) (N : Grid A L)
    (step_size : ℕ) (groups : Fin 4 → GroupState A L) : Grid A L :=
  fun a l => ∑ v : Fin 4, ∑ a2, ∑ l2,
    e.beta * phi a l a2 l2 / (step_size : ℚ) *
      (e.omega_PY a2 * (groups v).PY a2 l2 + e.omega_PA a2 * (groups v).PA a2 l2 +
        e.omega_IA * (groups v).IA a2 l2 + e.omega_IY * (groups v).IY a2 l2) /
      (∑ l3, N a2 l3)

/-- One sub-step of the per-day loop of `simulate_t` (SimModel.py lines
391-555): process the four groups in order (unvax, first dose, second dose,
waned) with the common exposure probability computed from the sub-step's
starting state, and accumulate into the waned group's Susceptible
compartment the immune-evasion and waning inflows produced by each group. -/
def substep {σ : Type} {A L : ℕ} (binom : BinomFn σ A L) (e : EpiDay A L)
    (phi : Phi A L) (N : Grid A L) (step_size : ℕ)
    (groups : Fin 4 → GroupState A L) (rng : Option σ) :
    (Fin 4 → GroupState A L) × Option σ :=
  let dSp := dSprob_sum e phi N step_size groups
  let q0 := processGroup binom e (e.gp 0) dSp false (groups 0) rng
  let q1 := processGroup binom e (e.gp 1) dSp true (groups 1) q0.2.2
  let q2 := processGroup binom e (e.gp 2) dSp true (groups 2) q1.2.2
  let q3 := processGroup binom e (e.gp 3) dSp false (groups 3) q2.2.2
  (![q0.1, q1.1, q2.1,
     { q3.1 with S := (fun a l =>
        (q3.1).S a l + q0.2.1 a l + q1.2.1 a l + q2.2.1 a l + q3.2.1 a l) }],
   q3.2.2)

/-- Run `k` sub-steps (`for _t in range(step_size)` of SimModel.py line 391,
with `k = step_size`). -/
def run_substeps {σ : Type} {A L : ℕ} (binom : BinomFn σ A L) (e : EpiDay A L)
    (phi : Phi A L) (N : Grid A L) (step_size : ℕ) :
    ℕ → (Fin 4 → GroupState A L) × Option σ → (Fin 4 → GroupState A L) × Option σ
  | 0, st => st
  | k + 1, st => run_substeps binom e phi N step_size k
      (substep binom e phi N step_size st.1 st.2)

/-- The per-capita ratio of the vaccination-flow pass with its
division-by-zero guard: `0 if N[i] == 0 else float(S[i] / N[i])`
(SimModel.py lines 614-619 and 662-667). -/
def ratioSN (s n : ℚ) : ℚ := if n = 0 then 0 else s / n

/-- The outgoing-side immune-evasion scaling of the vaccination-flow pass:
`if v_groups.v_name == "first_dose" and rate_immune > 0` the assignment is
scaled by `rate_immune` (SimModel.py lines 597-603). -/
def out_scale (g : Fin 4) (rimm : ℚ) : ℚ := if g = 1 ∧ 0 < rimm then rimm else 1

/-- The incoming-side immune-evasion scaling of the vaccination-flow pass:
`if v_groups.v_name == "second_dose" and v_temp.v_name == "first_dose" and
rate_immune > 0` the assignment is scaled by `rate_immune` (SimModel.py
lines 646-652). -/
def in_scale (g src : Fin 4) (rimm : ℚ) : ℚ :=
  if g = 2 ∧ src = 1 ∧ 0 < rimm then rimm else 1

/-- The Susceptible mass moved along one vaccination arc `e` on day `t`
when an allocation event exists: the per-capita ratio of the (possibly
scaled) dose assignment over the eligible population of the source group,
multiplied cellwise by the source group's Susceptible compartment
(SimModel.py lines 586-621 and 627-669). -/
def edge_flow {A L : ℕ} {σ ε : Type} (city : City A L σ ε) (t : ℕ) (scale : ℚ)
    (e : Fin 3) (S : Fin 4 → Grid A L) : Grid A L :=
  if city.vaccine_event t e then
    fun a l => ratioSN (scale * city.vaccine_assignment t e a l)
      (city.vaccine_eligible t e a l) * S (edge_src e) a l
  else 0

/-- `out_sum` of the vaccination-flow pass for one group (SimModel.py lines
582-621): total Susceptible mass leaving the group along its outgoing arcs. -/
def flow_out_sum {A L : ℕ} {σ ε : Type} (city : City A L σ ε) (t : ℕ) (rimm : ℚ)
    (S : Fin 4 → Grid A L) (g : Fin 4) : Grid A L :=
  ((v_out_list g).map (fun e => edge_flow city t (out_scale g rimm) e S)).sum

/-- `in_sum` of the vaccination-flow pass for one group (SimModel.py lines
623-669): total Susceptible mass entering the group along its incoming
arcs, each drawn from the arc's source group `v_temp`. -/
def flow_in_sum {A L : ℕ} {σ ε : Type} (city : City A L σ ε) (t : ℕ) (rimm : ℚ)
    (S : Fin 4 → Grid A L) (g : Fin 4) : Grid A L :=
  ((v_in_list g).map (fun e => edge_flow city t (in_scale g (edge_src e) rimm) e S)).sum

/-- The vaccination-flow redistribution of Susceptible mass
(`v_groups.S = v_groups.S + (in_sum - out_sum)`, SimModel.py line 671),
simultaneously over the four groups — the source loop reads only the
immutable end-of-day buffers `_S[step_size]`, so the sequential update is
equivalent. -/
def vaccine_flow_S {A L : ℕ} {σ ε : Type} (city : City A L σ ε) (t : ℕ) (rimm : ℚ)
    (S : Fin 4 → Grid A L) : Fin 4 → Grid A L :=
  fun g => fun a l =>
    S g a l + flow_in_sum city t rimm S g a l - flow_out_sum city t rimm S g a l

/-- The failure modes of a simulated day: calling an absent policy outside
the fixed-transmission-reduction window (a Python `AttributeError` at
SimModel.py line 329), the population-conservation assertion of
`simulate_time_period` (lines 303-305) and the Susceptible-conservation
assertion of the vaccination-flow pass (lines 680-683). -/
inductive SimError where
  | policyMissing : SimError
  | popImbalance : SimError
  | flowImbalance : SimError
  deriving DecidableEq

/-- The day's effective transmission object and (possibly updated) policy
(SimModel.py lines 317-343): replay the fixed historical transmission
reduction when the calendar provides one, otherwise consult the attached
policy — which appends the chosen tier to its history — and read the active
tier's coefficients.  Consulting an absent policy is the Python
`AttributeError` of line 329. -/
def day_phi_policy {σ ε : Type} {A L : ℕ} (city : City A L σ ε)
    (rep : Replication A L σ ε) (t : ℕ) :
    Except SimError (Phi A L × Option MultiTierPolicy) :=
  match city.fixed_transmission_reduction t with
  | some ftr => .ok (city.effective_phi (city.schools_closed t)
      (city.fixed_cocooning t) ftr (city.day_type t), rep.policy)
  | none =>
    match rep.policy with
    | none => .error .policyMissing
    | some p =>
      let p2 := policy_call p t rep.ToIHT_history rep.IH_history
        rep.ToIY_history rep.ICU_history
      let tier := p2.tiers.getD (p2.tier_history.getD t 0) defaultTier
      .ok (city.effective_phi tier.school_closure tier.cocooning
        tier.transmission_reduction (city.day_type t), some p2)

/-- `SimReplication.simulate_t` (SimModel.py lines 307-692): pick the day's
effective transmission object from the fixed historical reduction or from
the policy (appending to the policy's tier history), run the sub-step loop,
and, from `vaccine.vaccine_start_time` on, apply the vaccination-flow
redistribution guarded by its conservation assertion. -/
def simulate_t {σ ε : Type} {A L : ℕ} (binom : BinomFn σ A L) (city : City A L σ ε)
    (rep : Replication A L σ ε) (t : ℕ) : Except SimError (Replication A L σ ε) :=
  let e := city.effectiveEpi rep.epi_rand t
  match day_phi_policy city rep t with
  | .error err => .error err
  | .ok (phi, policy2) =>
    let st0 : Fin 4 → GroupState A L := fun g => zero_tracking (rep.vaccine_groups g)
    let res := run_substeps binom e phi city.N city.step_size city.step_size (st0, rep.rng)
    let groups1 := res.1
    if city.vaccine_start_time ≤ t then
      let S2 := vaccine_flow_S city t e.rate_immune (fun g => (groups1 g).S)
      let imbalance :=
        |(∑ g : Fin 4, gridTotal ((groups1 g).S)) - ∑ g : Fin 4, gridTotal (S2 g)|
      if imbalance < 1 / 100 then
        .ok { rep with
              vaccine_groups := fun g => { groups1 g with S := S2 g }
              policy := policy2
              rng := res.2 }
      else .error .flowImbalance
    else
      .ok { rep with
            vaccine_groups := groups1
            policy := policy2
            rng := res.2 }

/-- Aggregation of one variable across the four vaccine groups
(`sum_across_vaccine_groups`, SimModel.py lines 281-285). -/
def aggregate {A L : ℕ} (groups : Fin 4 → GroupState A L)
    (f : GroupState A L → Grid A L) : Grid A L :=
  fun a l => ∑ g, f (groups g) a l

/-- The loop body of `SimReplication.simulate_time_period` (SimModel.py
lines 269-305) for one day: advance `next_t`, simulate the day, append the
aggregated history variables, and check the population-conservation
assertion `|total - sum(N)| < 1e-2` (an assertion failure is the
`popImbalance` error). -/
def simulate_day {σ ε : Type} {A L : ℕ} (binom : BinomFn σ A L)
    (city : City A L σ ε) (rep : Replication A L σ ε) :
    Except SimError (Replication A L σ ε) :=
  let t := rep.next_t
  let rep1 := { rep with next_t := rep.next_t + 1 }
  match simulate_t binom city rep1 t with
  | .error err => .error err
  | .ok rep2 =>
    let G := rep2.vaccine_groups
    let rep3 := { rep2 with
      ICU_history := rep2.ICU_history ++ [aggregate G (fun s => s.ICU)]
      IH_history := rep2.IH_history ++ [aggregate G (fun s => s.IH)]
      D_history := rep2.D_history ++ [aggregate G (fun s => s.D)]
      R_history := rep2.R_history ++ [aggregate G (fun s => s.R)]
      ToIHT_history := rep2.ToIHT_history ++ [aggregate G (fun s => s.ToIHT)]
      ToIY_history := rep2.ToIY_history ++ [aggregate G (fun s => s.ToIY)]
      ToICUD_history := rep2.ToICUD_history ++ [aggregate G (fun s => s.ToICUD)]
      ToIYD_history := rep2.ToIYD_history ++ [aggregate G (fun s => s.ToIYD)] }
    let total_imbalance := gridTotal (fun a l =>
      aggregate G (fun s => s.S) a l + aggregate G (fun s => s.E) a l +
      aggregate G (fun s => s.IA) a l + aggregate G (fun s => s.IY) a l +
      aggregate G (fun s => s.R) a l + aggregate G (fun s => s.D) a l +
      aggregate G (fun s => s.PA) a l + aggregate G (fun s => s.PY) a l +
      aggregate G (fun s => s.IH) a l + aggregate G (fun s => s.ICU) a l) -
      gridTotal city.N
    if |total_imbalance| < 1 / 100 then .ok rep3
    else .error .popImbalance

/-- The daily loop of `SimReplication.simulate_time_period` (SimModel.py
line 269), iterated `k` times. -/
def simulate_time_period_aux {σ ε : Type} {A L : ℕ} (binom : BinomFn σ A L)
    (city : City A L σ ε) :
    ℕ → Replication A L σ ε → Except SimError (Replication A L σ ε)
  | 0, rep => .ok rep
  | k + 1, rep =>
    match simulate_day binom city rep with
    | .error err => .error err
    | .ok rep3 => simulate_time_period_aux binom city k rep3

/-- `SimReplication.simulate_time_period` (SimModel.py lines 253-305):
advance the replication from its cursor `next_t` up to but excluding
`time_end`. -/
def simulate_time_period {σ ε : Type} {A L : ℕ} (binom : BinomFn σ A L)
    (city : City A L σ ε) (time_end : ℕ) (rep : Replication A L σ ε) :
    Except SimError (Replication A L σ ε) :=
  simulate_time_period_aux binom city (time_end - rep.next_t) rep

/-- `SimReplication.compute_feasibility` (SimModel.py lines 194-220):
`None` without a policy or while still inside the historical-data period,
otherwise `False` exactly when some post-cutoff day's ICU census summed
over all strata exceeds the ICU capacity, else `True`. -/
def compute_feasibility {σ ε : Type} {A L : ℕ} (city : City A L σ ε)
    (rep : Replication A L σ ε) : Option Bool :=
  match rep.policy with
  | none => none
  | some _ =>
    if rep.next_t < t_historical_data_end city then none
    else if (rep.ICU_history.drop (t_historical_data_end city)).any
        (fun g => decide (city.icu < gridTotal g)) then some false
    else some true

/-- Arithmetic mean of a list (`np.mean`). -/
def list_mean (l : List ℚ) : ℚ := l.sum / (l.length : ℚ)

/-- `SimReplication.compute_rsq` (SimModel.py lines 222-251): the R-squared
type statistic comparing the simulated IH+ICU census against the historical
hospital census over the overlapping window. -/
def compute_rsq {σ ε : Type} {A L : ℕ} (city : City A L σ ε)
    (rep : Replication A L σ ε) : ℚ :=
  let IH_sim0 := (List.zipWith (fun a b => gridTotal a + gridTotal b)
    rep.ICU_history rep.IH_history).take (t_historical_data_end city)
  let pair :=
    if rep.next_t < t_historical_data_end city then
      (IH_sim0.take rep.next_t, city.real_IH_history.take rep.next_t)
    else (IH_sim0, city.real_IH_history)
  let f := pair.2
  1 - ((List.zipWith (fun x y => (x - y) ^ 2) pair.1 f).sum) /
    ((f.map (fun y => (y - list_mean f) ^ 2)).sum)

/-! Deterministic-mode transition quantities of the competing exits from
`IY`, `IH` and `ICU` (SimModel.py lines 486-543 with `rng = None`), named
for direct comparison with the engine. -/

/-- Deterministic `IYR` draw: `IY * rate_IYR` (SimModel.py line 486). -/
def IYR_det {A L : ℕ} (p : GroupParams A L) (s : GroupState A L) : Grid A L :=
  fun a l => s.IY a l * p.rate_IYR a l

/-- Deterministic `IYD` draw, conditioned on the count remaining after
`IYR`: `(IY - IYR) * rate_IYD` (SimModel.py line 487). -/
def IYD_det {A L : ℕ} (p : GroupParams A L) (s : GroupState A L) : Grid A L :=
  fun a l => (s.IY a l - IYR_det p s a l) * p.rate_IYD a l

/-- Deterministic `IYIH` draw, conditioned on the count remaining after
`IYR` and `IYD` (SimModel.py lines 508-510). -/
def IYIH_det {A L : ℕ} (p : GroupParams A L) (s : GroupState A L) : Grid A L :=
  fun a l => (s.IY a l - IYR_det p s a l - IYD_det p s a l) * p.rate_IYH a l

/-- Deterministic `IYICU` draw, conditioned on the count remaining after
`IYR`, `IYD` and `IYIH` (SimModel.py lines 511-513). -/
def IYICU_det {A L : ℕ} (p : GroupParams A L) (s : GroupState A L) : Grid A L :=
  fun a l =>
    (s.IY a l - IYR_det p s a l - IYD_det p s a l - IYIH_det p s a l) * p.rate_IYICU a l

/-- Deterministic `IHR` draw: `IH * rate_IHR` (SimModel.py line 524). -/
def IHR_det {A L : ℕ} (e : EpiDay A L) (s : GroupState A L) : Grid A L :=
  fun a l => s.IH a l * e.rate_IHR a l

/-- Deterministic `IHICU` draw, conditioned on the count remaining after
`IHR`: `(IH - IHR) * rate_IHICU` (SimModel.py lines 525-527). -/
def IHICU_det {A L : ℕ} (e : EpiDay A L) (s : GroupState A L) : Grid A L :=
  fun a l => (s.IH a l - IHR_det e s a l) * e.rate_IHICU a l

/-- Deterministic `ICUR` draw: `ICU * rate_ICUR` (SimModel.py line 533). -/
def ICUR_det {A L : ℕ} (e : EpiDay A L) (s : GroupState A L) : Grid A L :=
  fun a l => s.ICU a l * e.rate_ICUR a l

/-- Deterministic `ICUD` draw, conditioned on the count remaining after
`ICUR`: `(ICU - ICUR) * rate_ICUD` (SimModel.py lines 534-536). -/
def ICUD_det {A L : ℕ} (e : EpiDay A L) (s : GroupState A L) : Grid A L :=
  fun a l => (s.ICU a l - ICUR_det e s a l) * e.rate_ICUD a l

/-! The `OptTools.py` functions. -/

/-- Integer `np.arange(start, stop, step)`: the values
`start, start + step, …` of length `⌈(stop - start) / step⌉` (empty when
that is not positive).  `step = 0` raises in numpy and is mapped to the
empty list. -/
def np_arange (start stop step : ℤ) : List ℤ :=
  if step = 0 then []
  else (List.range (Int.toNat ⌈((stop - start : ℚ)) / (step : ℚ)⌉)).map
    (fun k => start + (k : ℤ) * step)

/-- `candidate_feasible_combos` of `OptTools.thresholds_generator`
(OptTools.py lines 213-223): the Cartesian product of the four stage grids
with `-1` prepended to every combination. -/
def candidate_feasible_combos (s2 s3 s4 s5 : ℤ × ℤ × ℤ) :
    List (ℤ × ℤ × ℤ × ℤ × ℤ) :=
  (np_arange s2.1 s2.2.1 s2.2.2).flatMap fun t2 =>
    (np_arange s3.1 s3.2.1 s3.2.2).flatMap fun t3 =>
      (np_arange s4.1 s4.2.1 s4.2.2).flatMap fun t4 =>
        (np_arange s5.1 s5.2.1 s5.2.2).map fun t5 => (-1, t2, t3, t4, t5)

/-- `OptTools.thresholds_generator` (OptTools.py lines 195-232): keep the
candidate 5-tuples whose successive differences are all non-negative
(`np.all(np.diff(combo) >= 0)`; note the first difference is `t2 - (-1)`). -/
def thresholds_generator (s2 s3 s4 s5 : ℤ × ℤ × ℤ) :
    List (ℤ × ℤ × ℤ × ℤ × ℤ) :=
  (candidate_feasible_combos s2 s3 s4 s5).filter fun c =>
    decide (c.1 ≤ c.2.1 ∧ c.2.1 ≤ c.2.2.1 ∧ c.2.2.1 ≤ c.2.2.2.1 ∧
      c.2.2.2.1 ≤ c.2.2.2.2)

/-- Number of parameters besides `self` accepted by
`SimReplication.simulate_time_period` (`def simulate_time_period(self,
time_end)`, SimModel.py line 253). -/
def simulate_time_period_num_params : ℕ := 1

/-- Number of positional arguments passed at the call site
`rep.simulate_time_period(timepoints[i], fixed_kappa_end_date)`
(OptTools.py line 131). -/
def get_sample_paths_call_num_args : ℕ := 2

/-- Python-level failures of `get_sample_paths`: a `TypeError` from a call
whose argument count does not match the method's parameters, or a
propagated simulation assertion. -/
inductive PyError where
  | typeError : PyError
  | simError : SimError → PyError
  deriving DecidableEq

/-- The Python calling convention for a bound method: the call produces the
body (as a thunk) only when the number of positional arguments matches the
number of declared parameters; otherwise it raises `TypeError` before any
of the body runs. -/
def call_method {α : Type} (numParams numArgs : ℕ) (f : Unit → α) :
    Except PyError (Unit → α) :=
  if numArgs = numParams then .ok f else .error .typeError

/-- Diagnostic counters of `get_sample_paths` (OptTools.py lines 105-114):
accepted-path count, total attempts and the per-checkpoint rejection
counter `num_elim_per_stage`. -/
structure SamplePathStats where
  num_good_reps : ℕ
  total_reps : ℕ
  num_elim_per_stage : List ℕ
  deriving DecidableEq

/-- Increment entry `i` of the rejection counter
(`num_elim_per_stage[i] += 1`, OptTools.py line 134). -/
def bump_stage (l : List ℕ) (i : ℕ) : List ℕ := l.set i (l.getD i 0 + 1)

/-- The fresh replication handed the previous path's generator (OptTools.py
lines 166-179): a seedless replication whose `rng` is overwritten with the
carried-over generator and whose `epi_rand` is resampled from it. -/
def handoff_rep {A L : ℕ} {σ ε : Type} (city : City A L σ ε) (rng : Option σ) :
    Replication A L σ ε :=
  { vaccine_groups := init_vaccine_groups city
    ICU_history := []
    IH_history := []
    D_history := []
    R_history := []
    ToIHT_history := []
    ToIY_history := []
    ToICUD_history := []
    ToIYD_history := []
    next_t := 0
    policy := none
    rng := rng
    epi_rand := city.sample_epi rng }

/-- The time-block loop of one attempt of `get_sample_paths` (OptTools.py
lines 130-141): for each checkpoint, call `rep.simulate_time_period` with
the two positional arguments of the call site (raising `TypeError` when the
method's signature does not accept them), then compare the fit statistic
with the cutoff; return the rejection checkpoint, if any, and the final
replication. -/
def run_time_blocks {σ ε : Type} {A L : ℕ} (binom : BinomFn σ A L)
    (city : City A L σ ε) (rsq_cutoff : ℚ) :
    List ℕ → ℕ → Replication A L σ ε →
    Except PyError (Option ℕ × Replication A L σ ε)
  | [], _, rep => .ok (none, rep)
  | tp :: rest, i, rep =>
    match call_method simulate_time_period_num_params get_sample_paths_call_num_args
        (fun _ => simulate_time_period binom city tp rep) with
    | .error err => .error err
    | .ok thunk =>
      match thunk () with
      | .error se => .error (.simError se)
      | .ok rep2 =>
        if compute_rsq city rep2 < rsq_cutoff then .ok (some i, rep2)
        else run_time_blocks binom city rsq_cutoff rest (i + 1) rep2

/-- The accept-reject loop of `OptTools.get_sample_paths` (lines 122-179),
with an explicit fuel bound on the number of attempts (the source loops
`while num_good_reps < goal_num_good_reps`); when the fuel runs out the
diagnostic counters gathered so far are returned. -/
def get_sample_paths_aux {σ ε : Type} {A L : ℕ} (binom : BinomFn σ A L)
    (city : City A L σ ε) (rsq_cutoff : ℚ) (goal : ℕ) (timepoints : List ℕ) :
    ℕ → Replication A L σ ε → SamplePathStats → Except PyError SamplePathStats
  | 0, _, stats => .ok stats
  | fuel + 1, rep, stats =>
    if stats.num_good_reps < goal then
      match run_time_blocks binom city rsq_cutoff timepoints 0 rep with
      | .error err => .error err
      | .ok (some i, rep2) =>
        get_sample_paths_aux binom city rsq_cutoff goal timepoints fuel
          (handoff_rep city rep2.rng)
          { stats with
            total_reps := stats.total_reps + 1
            num_elim_per_stage := bump_stage stats.num_elim_per_stage i }
      | .ok (none, rep2) =>
        get_sample_paths_aux binom city rsq_cutoff goal timepoints fuel
          (handoff_rep city rep2.rng)
          { stats with
            total_reps := stats.total_reps + 1
            num_good_reps := stats.num_good_reps + 1 }
    else .ok stats

/-- The default checkpoint days of `get_sample_paths`
(`timepoints=(25, 100, 200, 400, 783)`, OptTools.py line 50). -/
def default_timepoints : List ℕ := [25, 100, 200, 400, 783]

/-- `OptTools.get_sample_paths` (lines 44-190): create the seeded initial
replication and run the accept-reject loop. -/
def get_sample_paths {σ ε : Type} {A L : ℕ} (binom : BinomFn σ A L)
    (city : City A L σ ε) (mkGen : ℤ → σ) (rsq_cutoff : ℚ) (goal : ℕ)
    (seed : ℤ) (timepoints : List ℕ) (fuel : ℕ) : Except PyError SamplePathStats :=
  get_sample_paths_aux binom city rsq_cutoff goal timepoints fuel
    (SimReplication_init city none (some seed) mkGen)
    ⟨0, 0, List.replicate timepoints.length 0⟩

/-! Concrete instances used by the witness theorems: a one-age-group,
one-risk-group city with population 100 entirely in the unvaccinated
Susceptible compartment, no fixed transmission reduction (so the policy is
consulted), all-zero rates, and vaccination starting at day 5. -/

/-- Constant grid on the 1 × 1 stratification. -/
def gridC (q : ℚ) : Grid 1 1 := fun _ _ => q

/-- All-zero per-group parameters for the concrete test city. -/
def gp0 : GroupParams 1 1 :=
  { beta_reduct := 0
    tau_reduct := 0
    rate_IYR := 0
    rate_IYD := 0
    rate_IYH := 0
    rate_IYICU := 0 }

/-- All-zero effective day parameters for the concrete test city. -/
def epiDay0 : EpiDay 1 1 :=
  { omega_PY := fun _ => 0
    omega_PA := fun _ => 0
    omega_IA := 0
    omega_IY := 0
    beta := 0
    tau := 0
    rate_E := 0
    rate_IAR := 0
    rate_PAIA := 0
    rate_PYIY := 0
    rate_IHICU := 0
    rate_IHR := 0
    rate_ICUD := 0
    rate_ICUR := 0
    rate_immune := 0
    gp := fun _ => gp0 }

/-- Concrete test city. -/
def city0 : City 1 1 Unit Unit :=
  { N := gridC 100
    icu := 0
    step_size := 1
    real_IH_history := []
    fixed_transmission_reduction := fun _ => none
    schools_closed := fun _ => false
    fixed_cocooning := fun _ => 0
    day_type := fun _ => 0
    effective_phi := fun _ _ _ _ => fun _ _ _ _ => 0
    effectiveEpi := fun _ _ => epiDay0
    vaccine_start_time := 5
    vaccine_event := fun _ _ => false
    vaccine_assignment := fun _ _ => 0
    vaccine_eligible := fun _ _ => 0
    initial_S := fun g => if g = 0 then gridC 100 else 0
    initial_E := fun _ => 0
    initial_IA := fun _ => 0
    initial_IY := fun _ => 0
    initial_PA := fun _ => 0
    initial_PY := fun _ => 0
    initial_R := fun _ => 0
    initial_D := fun _ => 0
    initial_IH := fun _ => 0
    initial_ICU := fun _ => 0
    sample_epi := fun _ => () }

/-- Single-tier threshold policy with the always-eligible threshold `-1`. -/
def policy0 : MultiTierPolicy :=
  { tiers := [⟨false, 0, 0, 1⟩]
    lockdown_thresholds := [-1]
    tier_history := [] }

/-- A trivial binomial sampler for the concrete runs (the deterministic
branch never consults it). -/
def binom0 : BinomFn Unit 1 1 := fun s _ _ => (0, s)

/-- Concrete replication: test city, the single-tier policy attached, no
random seed. -/
def rep0 : Replication 1 1 Unit Unit :=
  SimReplication_init city0 (some policy0) none (fun _ => ())

/-- Test city for the feasibility claim: one day of historical data and an
ICU capacity of 10. -/
def cityF : City 1 1 Unit Unit :=
  { city0 with real_IH_history := [0], icu := 10 }

/-- Replication whose post-cutoff ICU census exceeds capacity on day 1. -/
def repFeasFalse : Replication 1 1 Unit Unit :=
  { rep0 with next_t := 2, ICU_history := [gridC 0, gridC 20] }

/-- Replication whose post-cutoff ICU census stays within capacity. -/
def repFeasTrue : Replication 1 1 Unit Unit :=
  { rep0 with next_t := 2, ICU_history := [gridC 0, gridC 5] }

/-- Replication with no policy attached. -/
def repFeasNone : Replication 1 1 Unit Unit :=
  { rep0 with policy := none, next_t := 2 }

/-- Day parameters with one-half transition probabilities on the competing
exits, for the sequential-draw witness. -/
def e7 : EpiDay 1 1 :=
  { epiDay0 with
    rate_IHR := gridC (1/2)
    rate_IHICU := gridC (1/2)
    rate_ICUD := gridC (1/2)
    rate_ICUR := gridC (1/2) }

/-- Group parameters with one-half transition probabilities on the
competing exits from `IY`, for the sequential-draw witness. -/
def p7 : GroupParams 1 1 :=
  { beta_reduct := 0
    tau_reduct := 0
    rate_IYR := gridC (1/2)
    rate_IYD := gridC (1/2)
    rate_IYH := gridC (1/2)
    rate_IYICU := gridC (1/2) }

/-- Group state with 16 symptomatic-infectious, 4 hospitalised and 2 ICU
individuals, for the sequential-draw witness. -/
def s7 : GroupState 1 1 :=
  { init_vaccine_groups city0 0 with IY := gridC 16, IH := gridC 4, ICU := gridC 2 }

/-! Helper lemmas. -/

/-- Membership of a satisfying element in a dropped suffix, phrased with
absolute day indices. -/
theorem list_drop_any_iff {α : Type} (l : List α) (n : ℕ) (p : α → Bool) (d : α) :
    (l.drop n).any p = true ↔
      ∃ i, n ≤ i ∧ i < l.length ∧ p (l.getD i d) = true := by
  rw [List.any_eq_true]
  constructor
  · rintro ⟨x, hx, hpx⟩
    obtain ⟨j, hj, hxe⟩ := List.mem_iff_getElem.mp hx
    have hlen : (l.drop n).length = l.length - n := List.length_drop n l
    have hjn : n + j < l.length := by omega
    refine ⟨n + j, Nat.le_add_right _ _, hjn, ?_⟩
    rw [List.getD_eq_getElem l d hjn]
    have hge : (l.drop n)[j] = l[n + j] := List.getElem_drop l
    rw [hge] at hxe
    rw [hxe]
    exact hpx
  · rintro ⟨i, hni, hil, hpi⟩
    refine ⟨l.getD i d, ?_, hpi⟩
    rw [List.getD_eq_getElem l d hil]
    have hj : i - n < (l.drop n).length := by
      rw [List.length_drop]; omega
    refine List.mem_iff_getElem.mpr ⟨i - n, hj, ?_⟩
    have hge : (l.drop n)[i - n] = l[n + (i - n)] := List.getElem_drop l
    rw [hge]
    have hidx : n + (i - n) = i := by omega
    simp only [hidx]

/-- Every candidate combination starts with the fixed stage-1 threshold
`-1` (OptTools.py line 223). -/
theorem candidate_mem_first_eq {s2 s3 s4 s5 : ℤ × ℤ × ℤ} {c : ℤ × ℤ × ℤ × ℤ × ℤ}
    (hc : c ∈ candidate_feasible_combos s2 s3 s4 s5) : c.1 = -1 := by
  simp only [candidate_feasible_combos, List.mem_flatMap, List.mem_map] at hc
  obtain ⟨t2, -, t3, -, t4, -, t5, -, rfl⟩ := hc
  rfl

/-! Claim theorems. -/

/-- Claim C10: for `rng_seed = 0` (an integer that is falsy in Python),
`init_rng` sets the generator to `None`, exactly as for seed `None` or
`-1`; a generator is created precisely for seeds `≥ 1`; and with the
resulting absent generator every transition quantity is the deterministic
expectation `n * p`. -/
theorem claim10_init_rng_seed_zero {σ : Type} (mkGen : ℤ → σ) :
    init_rng mkGen (some 0) = none ∧ init_rng mkGen none = none ∧
    init_rng mkGen (some (-1)) = none ∧
    (∀ s : ℤ, init_rng mkGen (some s) = if 1 ≤ s then some (mkGen s) else none) ∧
    (∀ (A L : ℕ) (binom : BinomFn σ A L) (n p : Grid A L),
      (get_binomial_transition_quantity binom (init_rng mkGen (some 0)) n p).1 =
        fun a l => n a l * p a l) := by
  have h0 : init_rng mkGen (some 0) = none := by norm_num [init_rng]
  refine ⟨h0, rfl, by norm_num [init_rng], ?_, ?_⟩
  · intro s
    by_cases hs : s = 0
    · subst hs; norm_num [init_rng]
    · by_cases h1 : 0 ≤ s
      · have h2 : (1 : ℤ) ≤ s := by omega
        simp [init_rng, hs, h1, h2]
      · have h2 : ¬ (1 : ℤ) ≤ s := by omega
        simp [init_rng, hs, h1, h2]
  · intro A L binom n p
    rw [h0]
    rfl

/-- Witness for C10 at concrete seeds: seed 0 yields no generator while
seed 5 yields one. -/
theorem claim10_witness :
    init_rng (fun s : ℤ => s) (some 0) = none ∧
      init_rng (fun s : ℤ => s) (some 5) = some 5 := by
  refine ⟨(claim10_init_rng_seed_zero (fun s : ℤ => s)).1, ?_⟩
  rw [(claim10_init_rng_seed_zero (fun s : ℤ => s)).2.2.2.1 5]
  norm_num

/-- Counterexample for claim C5 as frozen: with stage ranges
`(-2, -1, 1)` for all four stages the grid is `[-2]`, the candidate tuple
`(-1, -2, -2, -2, -2)` satisfies `t2 ≤ t3 ≤ t4 ≤ t5`, yet it is excluded
because `np.diff` also tests the leading gap `t2 - (-1) ≥ 0`. -/
theorem claim5_counterexample :
    ((-1, -2, -2, -2, -2) : ℤ × ℤ × ℤ × ℤ × ℤ) ∈
        candidate_feasible_combos (-2, -1, 1) (-2, -1, 1) (-2, -1, 1) (-2, -1, 1) ∧
    ((-2 : ℤ) ≤ -2 ∧ (-2 : ℤ) ≤ -2 ∧ (-2 : ℤ) ≤ -2) ∧
    ((-1, -2, -2, -2, -2) : ℤ × ℤ × ℤ × ℤ × ℤ) ∉
        thresholds_generator (-2, -1, 1) (-2, -1, 1) (-2, -1, 1) (-2, -1, 1) := by
  with_unfolding_all decide

/-- Claim C5 as amended: a candidate 5-tuple is returned by
`thresholds_generator` exactly when it lies in the Cartesian product and
its whole chain `-1 ≤ t2 ≤ t3 ≤ t4 ≤ t5` (including the leading `-1`) is
non-decreasing; in particular every returned tuple has first element `-1`
and non-decreasing stage thresholds. -/
theorem claim5_amended_monotonic_filter (s2 s3 s4 s5 : ℤ × ℤ × ℤ)
    (c : ℤ × ℤ × ℤ × ℤ × ℤ) :
    c ∈ thresholds_generator s2 s3 s4 s5 ↔
      (c ∈ candidate_feasible_combos s2 s3 s4 s5 ∧ c.1 = -1 ∧ c.1 ≤ c.2.1 ∧
        c.2.1 ≤ c.2.2.1 ∧ c.2.2.1 ≤ c.2.2.2.1 ∧ c.2.2.2.1 ≤ c.2.2.2.2) := by
  simp only [thresholds_generator, List.mem_filter, decide_eq_true_eq]
  constructor
  · rintro ⟨hm, h1, h2, h3, h4⟩
    exact ⟨hm, candidate_mem_first_eq hm, h1, h2, h3, h4⟩
  · rintro ⟨hm, -, h1, h2, h3, h4⟩
    exact ⟨hm, h1, h2, h3, h4⟩

/-- Witness for the amended C5 at a concrete grid: the monotone tuple
`(-1, 3, 4, 4, 4)` from the product of `[3, 4]` grids is returned. -/
theorem claim5_witness :
    ((-1, 3, 4, 4, 4) : ℤ × ℤ × ℤ × ℤ × ℤ) ∈
      thresholds_generator (3, 5, 1) (3, 5, 1) (3, 5, 1) (3, 5, 1) :=
  (claim5_amended_monotonic_filter (3, 5, 1) (3, 5, 1) (3, 5, 1) (3, 5, 1)
    (-1, 3, 4, 4, 4)).mpr (by with_unfolding_all decide)

/-- Claim C3 settled against the code: the accept-reject loop of
`get_sample_paths` cannot produce any accepted path, because its very first
checkpoint call passes two positional arguments to
`SimReplication.simulate_time_period`, whose signature accepts one, raising
`TypeError` — for any cutoff goal, seed and random stream, in particular
for cutoff 0 and goal 3. -/
theorem claim3_get_sample_paths_arity_mismatch {σ ε : Type} {A L : ℕ}
    (binom : BinomFn σ A L) (city : City A L σ ε) (mkGen : ℤ → σ) (seed : ℤ)
    (fuel : ℕ) :
    get_sample_paths binom city mkGen 0 3 seed default_timepoints (fuel + 1) =
      .error .typeError ∧
    get_sample_paths_call_num_args ≠ simulate_time_period_num_params :=
  ⟨rfl, by decide⟩

/-- Claim C9: a zero eligible-population denominator yields a per-capita
ratio of exactly 0 in the vaccination-flow pass, so the redistributed
Susceptible mass along that arc is 0 rather than a NaN or infinity. -/
theorem claim9_zero_eligible_ratio {σ ε : Type} {A L : ℕ} (city : City A L σ ε)
    (t : ℕ) (e : Fin 3) (S : Fin 4 → Grid A L) (scale : ℚ) (a : Fin A) (l : Fin L)
    (h : city.vaccine_eligible t e a l = 0) :
    ratioSN (scale * city.vaccine_assignment t e a l)
        (city.vaccine_eligible t e a l) = 0 ∧
      edge_flow city t scale e S a l = 0 := by
  have h1 : ratioSN (scale * city.vaccine_assignment t e a l)
      (city.vaccine_eligible t e a l) = 0 := by
    rw [h]
    simp [ratioSN]
  refine ⟨h1, ?_⟩
  by_cases hev : city.vaccine_event t e
  · simp only [edge_flow, hev, if_true]
    rw [h1, zero_mul]
  · simp [edge_flow, hev]

/-- Witness for C9 on the concrete test city, whose eligible populations
are all zero. -/
theorem claim9_witness :
    (ratioSN (1 * city0.vaccine_assignment 0 0 0 0) (city0.vaccine_eligible 0 0 0 0) = 0 ∧
      edge_flow city0 0 1 0 (fun _ => gridC 5) 0 0 = 0) :=
  claim9_zero_eligible_ratio city0 0 0 (fun _ => gridC 5) 1 0 0
    (by with_unfolding_all decide)

/-- Claim C4: `compute_feasibility` returns `None` when no policy is
attached or the simulation cursor is still inside the historical-data
period; otherwise it returns `False` exactly when some day at or after the
historical cutoff has total ICU census strictly above the ICU capacity, and
`True` otherwise (and, being a total function of the replication state, it
raises no exception in any of these cases). -/
theorem claim4_feasibility_trichotomy {σ ε : Type} {A L : ℕ} (city : City A L σ ε)
    (rep : Replication A L σ ε) :
    (rep.policy = none → compute_feasibility city rep = none) ∧
    (rep.next_t < t_historical_data_end city → compute_feasibility city rep = none) ∧
    (rep.policy ≠ none → t_historical_data_end city ≤ rep.next_t →
      ((compute_feasibility city rep = some false ↔
        ∃ i, t_historical_data_end city ≤ i ∧ i < rep.ICU_history.length ∧
          city.icu < gridTotal (rep.ICU_history.getD i 0)) ∧
       (compute_feasibility city rep = some true ↔
        ¬ ∃ i, t_historical_data_end city ≤ i ∧ i < rep.ICU_history.length ∧
          city.icu < gridTotal (rep.ICU_history.getD i 0)))) := by
  refine ⟨?_, ?_, ?_⟩
  · intro h
    simp [compute_feasibility, h]
  · intro h
    rcases hp : rep.policy with _ | p
    · simp [compute_feasibility, hp]
    · simp [compute_feasibility, hp, h]
  · intro hp hle
    rcases hq : rep.policy with _ | p
    · exact absurd hq hp
    · have hnl : ¬ rep.next_t < t_historical_data_end city := by omega
      have hkey := list_drop_any_iff rep.ICU_history (t_historical_data_end city)
        (fun g => decide (city.icu < gridTotal g)) 0
      simp only [decide_eq_true_eq] at hkey
      have hcf : compute_feasibility city rep =
          (if (rep.ICU_history.drop (t_historical_data_end city)).any
              (fun g => decide (city.icu < gridTotal g)) = true
           then some false else some true) := by
        simp [compute_feasibility, hq, hnl]
      rw [hcf]
      by_cases hany : (rep.ICU_history.drop (t_historical_data_end city)).any
          (fun g => decide (city.icu < gridTotal g)) = true
      · have hP := hkey.mp hany
        rw [if_pos hany]
        constructor
        · exact ⟨fun _ => hP, fun _ => rfl⟩
        · constructor
          · intro hco
            exact absurd (Option.some.injEq _ _ ▸ hco) (by simp)
          · intro hna
            exact absurd hP hna
      · have hnP : ¬ ∃ i, t_historical_data_end city ≤ i ∧
            i < rep.ICU_history.length ∧
            city.icu < gridTotal (rep.ICU_history.getD i 0) :=
          fun hx => hany (hkey.mpr hx)
        rw [if_neg hany]
        constructor
        · constructor
          · intro hco
            exact absurd (Option.some.injEq _ _ ▸ hco) (by simp)
          · intro hP
            exact absurd hP hnP
        · exact ⟨fun _ => hnP, fun _ => rfl⟩

/-- Witness for C4 on the concrete feasibility city: no policy gives the
not-applicable result, one over-capacity post-cutoff day gives `False`, and
an always-within-capacity history gives `True`. -/
theorem claim4_witness :
    compute_feasibility cityF repFeasNone = none ∧
      compute_feasibility cityF repFeasFalse = some false ∧
      compute_feasibility cityF repFeasTrue = some true := by
  refine ⟨(claim4_feasibility_trichotomy cityF repFeasNone).1 rfl, ?_, ?_⟩
  · exact ((claim4_feasibility_trichotomy cityF repFeasFalse).2.2
      (by with_unfolding_all decide) (by with_unfolding_all decide)).1.mpr
      ⟨1, by with_unfolding_all decide, by with_unfolding_all decide,
        by with_unfolding_all decide⟩
  · refine ((claim4_feasibility_trichotomy cityF repFeasTrue).2.2
      (by with_unfolding_all decide) (by with_unfolding_all decide)).2.mpr ?_
    rintro ⟨i, h1, h2, h3⟩
    have hlen : repFeasTrue.ICU_history.length = 2 := rfl
    have hth : t_historical_data_end cityF = 1 := rfl
    rw [hlen] at h2
    rw [hth] at h1
    have hi : i = 1 := by omega
    subst hi
    exact absurd h3 (by with_unfolding_all decide)

/-- Per-cell double-entry accounting of one group's sub-step: the total
mass of the ten compartments after `processGroup`, plus the mass the group
sent to the waned group's Susceptible compartment, equals the total mass
before — for arbitrary draw values, hence for every random stream. -/
theorem processGroup_cell_total {σ : Type} {A L : ℕ} (binom : BinomFn σ A L)
    (e : EpiDay A L) (p : GroupParams A L) (dSp : Grid A L) (imm : Bool)
    (s : GroupState A L) (rng : Option σ) (a : Fin A) (l : Fin L) :
    cell_total (processGroup binom e p dSp imm s rng).1 a l +
      (processGroup binom e p dSp imm s rng).2.1 a l = cell_total s a l := by
  cases imm <;>
    (simp only [processGroup, cell_total]; ring)

/-- Total mass of the ten state compartments of one group. -/
def group_mass {A L : ℕ} (s : GroupState A L) : ℚ := ∑ a, ∑ l, cell_total s a l

/-- `totalPop` is the sum of the four groups' masses. -/
theorem totalPop_eq_sum_group_mass {A L : ℕ} (groups : Fin 4 → GroupState A L) :
    totalPop groups = ∑ g, group_mass (groups g) := rfl

/-- Summed form of the per-cell accounting of `processGroup`. -/
theorem processGroup_mass {σ : Type} {A L : ℕ} (binom : BinomFn σ A L)
    (e : EpiDay A L) (p : GroupParams A L) (dSp : Grid A L) (imm : Bool)
    (s : GroupState A L) (rng : Option σ) :
    group_mass (processGroup binom e p dSp imm s rng).1 +
      gridTotal (processGroup binom e p dSp imm s rng).2.1 = group_mass s := by
  unfold group_mass gridTotal
  rw [← Finset.sum_add_distrib]
  refine Finset.sum_congr rfl fun a _ => ?_
  rw [← Finset.sum_add_distrib]
  exact Finset.sum_congr rfl fun l _ => processGroup_cell_total binom e p dSp imm s rng a l

/-- Double-entry accounting over the four groups: if each group's sub-step
conserves its own mass up to the grid it sends to the waned Susceptible
compartment, then crediting all four contributions to the waned group's
Susceptible compartment conserves the grand total. -/
theorem four_group_accounting {A L : ℕ}
    (q0 q1 q2 q3 s0 s1 s2 s3 : GroupState A L) (c0 c1 c2 c3 : Grid A L)
    (f : Grid A L)
    (hf : ∀ a l, f a l = q3.S a l + c0 a l + c1 a l + c2 a l + c3 a l)
    (h0 : ∀ a l, cell_total q0 a l + c0 a l = cell_total s0 a l)
    (h1 : ∀ a l, cell_total q1 a l + c1 a l = cell_total s1 a l)
    (h2 : ∀ a l, cell_total q2 a l + c2 a l = cell_total s2 a l)
    (h3 : ∀ a l, cell_total q3 a l + c3 a l = cell_total s3 a l) :
    group_mass q0 + group_mass q1 + group_mass q2 +
      group_mass { q3 with S := f } =
      group_mass s0 + group_mass s1 + group_mass s2 + group_mass s3 := by
  have hsum : ∀ (x y : GroupState A L) (c : Grid A L),
      (∀ a l, cell_total x a l + c a l = cell_total y a l) →
      group_mass x + (∑ a, ∑ l, c a l) = group_mass y := by
    intro x y c h
    unfold group_mass
    rw [← Finset.sum_add_distrib]
    refine Finset.sum_congr rfl fun a _ => ?_
    rw [← Finset.sum_add_distrib]
    exact Finset.sum_congr rfl fun l _ => h a l
  have H0 := hsum q0 s0 c0 h0
  have H1 := hsum q1 s1 c1 h1
  have H2 := hsum q2 s2 c2 h2
  have H3 := hsum q3 s3 c3 h3
  have hpt : ∀ a l, cell_total { q3 with S := f } a l =
      cell_total q3 a l + c0 a l + c1 a l + c2 a l + c3 a l := by
    intro a l
    simp only [cell_total, hf]
    ring
  have H4 : group_mass { q3 with S := f } =
      group_mass q3 + (∑ a, ∑ l, c0 a l) + (∑ a, ∑ l, c1 a l) +
        (∑ a, ∑ l, c2 a l) + (∑ a, ∑ l, c3 a l) := by
    unfold group_mass
    calc (∑ a, ∑ l, cell_total { q3 with S := f } a l)
        = ∑ a, ∑ l, (cell_total q3 a l + c0 a l + c1 a l + c2 a l + c3 a l) :=
          Finset.sum_congr rfl fun a _ => Finset.sum_congr rfl fun l _ => hpt a l
      _ = _ := by simp [Finset.sum_add_distrib]
  linarith

/-- One sub-step of the transition engine conserves the total population
across the four groups and all ten compartments — for every random stream. -/
theorem substep_totalPop {σ : Type} {A L : ℕ} (binom : BinomFn σ A L)
    (e : EpiDay A L) (phi : Phi A L) (N : Grid A L) (ss : ℕ)
    (groups : Fin 4 → GroupState A L) (rng : Option σ) :
    totalPop (substep binom e phi N ss groups rng).1 = totalPop groups := by
  rw [totalPop_eq_sum_group_mass, totalPop_eq_sum_group_mass,
    Fin.sum_univ_four, Fin.sum_univ_four]
  simp only [substep, Matrix.cons_val_zero, Matrix.cons_val_one, Matrix.head_cons,
    Matrix.cons_val_two, Matrix.tail_cons, Matrix.cons_val_three]
  exact four_group_accounting _ _ _ _ _ _ _ _ _ _ _ _ _
    (fun a l => rfl)
    (processGroup_cell_total binom e _ _ false (groups 0) rng)
    (processGroup_cell_total binom e _ _ true (groups 1) _)
    (processGroup_cell_total binom e _ _ true (groups 2) _)
    (processGroup_cell_total binom e _ _ false (groups 3) _)

/-- The whole sub-step loop conserves the total population. -/
theorem run_substeps_totalPop {σ : Type} {A L : ℕ} (binom : BinomFn σ A L)
    (e : EpiDay A L) (phi : Phi A L) (N : Grid A L) (ss : ℕ) :
    ∀ (k : ℕ) (st : (Fin 4 → GroupState A L) × Option σ),
      totalPop (run_substeps binom e phi N ss k st).1 = totalPop st.1 := by
  intro k
  induction k with
  | zero => intro st; rfl
  | succ k ih =>
    intro st
    simp only [run_substeps]
    rw [ih]
    exact substep_totalPop binom e phi N ss st.1 st.2

/-- Exchange a group-indexed sum of grid totals for a cellwise sum. -/
theorem sum_gridTotal_eq {A L : ℕ} (F : Fin 4 → Grid A L) :
    (∑ g, gridTotal (F g)) = ∑ a, ∑ l, ∑ g, F g a l := by
  unfold gridTotal
  exact Finset.sum_comm.trans (Finset.sum_congr rfl fun a _ => Finset.sum_comm)

/-- The vaccination-flow redistribution conserves the total Susceptible
mass exactly: every arc's outgoing term reappears, with an identical
scaling factor, as the incoming term of its destination group. -/
theorem vaccine_flow_S_total {σ ε : Type} {A L : ℕ} (city : City A L σ ε)
    (t : ℕ) (rimm : ℚ) (S : Fin 4 → Grid A L) :
    (∑ g, gridTotal (vaccine_flow_S city t rimm S g)) = ∑ g, gridTotal (S g) := by
  have hsc0 : out_scale 0 rimm = 1 := by
    unfold out_scale
    rw [if_neg]
    rintro ⟨h, -⟩
    exact absurd h (by decide)
  have hsc3 : out_scale 3 rimm = 1 := by
    unfold out_scale
    rw [if_neg]
    rintro ⟨h, -⟩
    exact absurd h (by decide)
  have hin10 : in_scale 1 (edge_src 0) rimm = 1 := by
    unfold in_scale
    rw [if_neg]
    rintro ⟨h, -⟩
    exact absurd h (by decide)
  have hin23 : in_scale 2 (edge_src 2) rimm = 1 := by
    unfold in_scale
    rw [if_neg]
    rintro ⟨-, h, -⟩
    exact absurd h (by decide)
  have hkey : in_scale 2 (edge_src 1) rimm = out_scale 1 rimm := by
    unfold in_scale out_scale edge_src
    by_cases h : 0 < rimm
    · rw [if_pos ⟨rfl, rfl, h⟩, if_pos ⟨rfl, h⟩]
    · rw [if_neg (fun hc => h hc.2.2), if_neg (fun hc => h hc.2)]
  rw [sum_gridTotal_eq, sum_gridTotal_eq]
  refine Finset.sum_congr rfl fun a _ => Finset.sum_congr rfl fun l _ => ?_
  rw [Fin.sum_univ_four, Fin.sum_univ_four]
  simp only [vaccine_flow_S, flow_in_sum, flow_out_sum, v_in_list, v_out_list,
    List.map_cons, List.map_nil, List.sum_cons, List.sum_nil, Pi.add_apply,
    Pi.zero_apply, add_zero, hsc0, hsc3, hin10, hin23, hkey]
  ring

/-- Replacing the Susceptible grid changes a group's mass by the difference
of the Susceptible totals. -/
theorem group_mass_S_update {A L : ℕ} (s : GroupState A L) (f : Grid A L) :
    group_mass { s with S := f } = group_mass s - gridTotal s.S + gridTotal f := by
  have hpt : ∀ a l, cell_total { s with S := f } a l =
      cell_total s a l - s.S a l + f a l := by
    intro a l
    simp only [cell_total]
    ring
  unfold group_mass gridTotal
  calc (∑ a, ∑ l, cell_total { s with S := f } a l)
      = ∑ a, ∑ l, (cell_total s a l - s.S a l + f a l) :=
        Finset.sum_congr rfl fun a _ => Finset.sum_congr rfl fun l _ => hpt a l
    _ = _ := by simp [Finset.sum_add_distrib, Finset.sum_sub_distrib]

/-- Applying the vaccination-flow redistribution to the Susceptible grids
of the four groups leaves the total population unchanged. -/
theorem totalPop_flow_update {σ ε : Type} {A L : ℕ} (city : City A L σ ε) (t : ℕ)
    (rimm : ℚ) (groups1 : Fin 4 → GroupState A L) :
    totalPop (fun g => { groups1 g with
      S := vaccine_flow_S city t rimm (fun g2 => (groups1 g2).S) g }) =
      totalPop groups1 := by
  rw [totalPop_eq_sum_group_mass, totalPop_eq_sum_group_mass]
  have hflow := vaccine_flow_S_total city t rimm (fun g2 => (groups1 g2).S)
  calc (∑ g, group_mass { groups1 g with
        S := vaccine_flow_S city t rimm (fun g2 => (groups1 g2).S) g })
      = ∑ g, (group_mass (groups1 g) - gridTotal ((groups1 g).S) +
          gridTotal (vaccine_flow_S city t rimm (fun g2 => (groups1 g2).S) g)) :=
        Finset.sum_congr rfl fun g _ => group_mass_S_update _ _
    _ = (∑ g, group_mass (groups1 g)) - (∑ g, gridTotal ((groups1 g).S)) +
        ∑ g, gridTotal (vaccine_flow_S city t rimm (fun g2 => (groups1 g2).S) g) := by
        simp [Finset.sum_add_distrib, Finset.sum_sub_distrib]
    _ = ∑ g, group_mass (groups1 g) := by
        rw [hflow]
        ring

/-- The only failure `simulate_t` can produce is the missing-policy error:
the Susceptible-conservation assertion of the vaccination-flow pass never
fires, for any random stream. -/
theorem simulate_t_error_policyMissing {σ ε : Type} {A L : ℕ} (binom : BinomFn σ A L)
    (city : City A L σ ε) (rep : Replication A L σ ε) (t : ℕ) (err : SimError)
    (h : simulate_t binom city rep t = .error err) : err = .policyMissing := by
  cases hpp : day_phi_policy city rep t with
  | error e2 =>
    have he2 : e2 = SimError.policyMissing := by
      unfold day_phi_policy at hpp
      cases hft : city.fixed_transmission_reduction t with
      | some ftr =>
        rw [hft] at hpp
        simp at hpp
      | none =>
        rw [hft] at hpp
        cases hp : rep.policy with
        | none =>
          rw [hp] at hpp
          injection hpp with h2
          exact h2.symm
        | some p =>
          rw [hp] at hpp
          simp at hpp
    simp only [simulate_t, hpp] at h
    injection h with h3
    rw [← h3, he2]
  | ok pp =>
    obtain ⟨phi, policy2⟩ := pp
    simp only [simulate_t, hpp] at h
    by_cases hvs : city.vaccine_start_time ≤ t
    · rw [if_pos hvs] at h
      split at h
      · exact Except.noConfusion h
      · rename_i hcond
        exfalso
        apply hcond
        rw [vaccine_flow_S_total]
        simp
    · rw [if_neg hvs] at h
      exact Except.noConfusion h

/-- A successfully simulated day conserves the total population across all
compartments and groups, for any random stream. -/
theorem simulate_t_ok_totalPop {σ ε : Type} {A L : ℕ} (binom : BinomFn σ A L)
    (city : City A L σ ε) (rep : Replication A L σ ε) (t : ℕ)
    (rep2 : Replication A L σ ε) (h : simulate_t binom city rep t = .ok rep2) :
    totalPop rep2.vaccine_groups = totalPop rep.vaccine_groups := by
  cases hpp : day_phi_policy city rep t with
  | error e2 =>
    simp only [simulate_t, hpp] at h
    exact Except.noConfusion h
  | ok pp =>
    obtain ⟨phi, policy2⟩ := pp
    simp only [simulate_t, hpp] at h
    by_cases hvs : city.vaccine_start_time ≤ t
    · rw [if_pos hvs] at h
      split at h
      · injection h with h2
        subst h2
        exact (totalPop_flow_update city t _ _).trans
          (run_substeps_totalPop binom _ phi city.N city.step_size city.step_size
            (fun g => zero_tracking (rep.vaccine_groups g), rep.rng))
      · exact Except.noConfusion h
    · rw [if_neg hvs] at h
      injection h with h2
      subst h2
      exact run_substeps_totalPop binom _ phi city.N city.step_size city.step_size
        (fun g => zero_tracking (rep.vaccine_groups g), rep.rng)

/-- The aggregated per-day population total computed by the conservation
check of `simulate_time_period` equals `totalPop`. -/
theorem day_total_eq_totalPop {A L : ℕ} (G : Fin 4 → GroupState A L) :
    gridTotal (fun a l =>
      aggregate G (fun s => s.S) a l + aggregate G (fun s => s.E) a l +
      aggregate G (fun s => s.IA) a l + aggregate G (fun s => s.IY) a l +
      aggregate G (fun s => s.R) a l + aggregate G (fun s => s.D) a l +
      aggregate G (fun s => s.PA) a l + aggregate G (fun s => s.PY) a l +
      aggregate G (fun s => s.IH) a l + aggregate G (fun s => s.ICU) a l) =
      totalPop G := by
  have hpt : ∀ (a : Fin A) (l : Fin L),
      aggregate G (fun s => s.S) a l + aggregate G (fun s => s.E) a l +
      aggregate G (fun s => s.IA) a l + aggregate G (fun s => s.IY) a l +
      aggregate G (fun s => s.R) a l + aggregate G (fun s => s.D) a l +
      aggregate G (fun s => s.PA) a l + aggregate G (fun s => s.PY) a l +
      aggregate G (fun s => s.IH) a l + aggregate G (fun s => s.ICU) a l =
      ∑ g, cell_total (G g) a l := by
    intro a l
    simp only [aggregate, cell_total, Finset.sum_add_distrib]
    ring
  unfold gridTotal
  calc (∑ a, ∑ l, (aggregate G (fun s => s.S) a l + aggregate G (fun s => s.E) a l +
        aggregate G (fun s => s.IA) a l + aggregate G (fun s => s.IY) a l +
        aggregate G (fun s => s.R) a l + aggregate G (fun s => s.D) a l +
        aggregate G (fun s => s.PA) a l + aggregate G (fun s => s.PY) a l +
        aggregate G (fun s => s.IH) a l + aggregate G (fun s => s.ICU) a l))
      = ∑ a, ∑ l, ∑ g, cell_total (G g) a l :=
        Finset.sum_congr rfl fun a _ => Finset.sum_congr rfl fun l _ => hpt a l
    _ = totalPop G := (sum_gridTotal_eq fun g => fun a l => cell_total (G g) a l).symm

/-- One loop iteration of `simulate_time_period`, starting from a balanced
replication, can fail only with the missing-policy error — the population
check of lines 290-305 always passes — and any successful result is again
balanced. -/
theorem simulate_day_cases {σ ε : Type} {A L : ℕ} (binom : BinomFn σ A L)
    (city : City A L σ ε) (rep : Replication A L σ ε)
    (hbal : totalPop rep.vaccine_groups = gridTotal city.N) :
    (∀ err, simulate_day binom city rep = .error err → err = .policyMissing) ∧
    (∀ rep3, simulate_day binom city rep = .ok rep3 →
      totalPop rep3.vaccine_groups = gridTotal city.N) := by
  cases hs : simulate_t binom city { rep with next_t := rep.next_t + 1 } rep.next_t with
  | error err =>
    have herr := simulate_t_error_policyMissing binom city _ _ err hs
    subst herr
    constructor
    · intro err2 h
      simp only [simulate_day, hs] at h
      injection h with h2
      exact h2.symm
    · intro rep3 h
      simp only [simulate_day, hs] at h
      exact Except.noConfusion h
  | ok rep2 =>
    have htot2 : totalPop rep2.vaccine_groups = gridTotal city.N :=
      (simulate_t_ok_totalPop binom city _ _ rep2 hs).trans hbal
    constructor
    · intro err2 h
      simp only [simulate_day, hs] at h
      split at h
      · exact Except.noConfusion h
      · rename_i hncond
        exfalso
        apply hncond
        rw [day_total_eq_totalPop, htot2]
        simp
    · intro rep3 h
      simp only [simulate_day, hs] at h
      split at h
      · injection h with h2
        rw [← h2]
        exact htot2
      · exact Except.noConfusion h

/-- Induction along the daily loop of `simulate_time_period`: starting from
a balanced replication, neither conservation assertion ever fires, and any
successful result is again balanced. -/
theorem simulate_time_period_aux_conservation {σ ε : Type} {A L : ℕ}
    (binom : BinomFn σ A L) (city : City A L σ ε) :
    ∀ (k : ℕ) (rep : Replication A L σ ε),
      totalPop rep.vaccine_groups = gridTotal city.N →
      (simulate_time_period_aux binom city k rep ≠ .error .popImbalance) ∧
      (simulate_time_period_aux binom city k rep ≠ .error .flowImbalance) ∧
      (∀ rep2, simulate_time_period_aux binom city k rep = .ok rep2 →
        totalPop rep2.vaccine_groups = gridTotal city.N) := by
  intro k
  induction k with
  | zero =>
    intro rep hbal
    refine ⟨fun h => Except.noConfusion h, fun h => Except.noConfusion h,
      fun rep2 h => ?_⟩
    injection h with h2
    rw [← h2]
    exact hbal
  | succ k ih =>
    intro rep hbal
    have hday := simulate_day_cases binom city rep hbal
    simp only [simulate_time_period_aux]
    cases hs : simulate_day binom city rep with
    | error err =>
      have herr := hday.1 err hs
      subst herr
      refine ⟨fun h => ?_, fun h => ?_, fun rep2 h => Except.noConfusion h⟩
      · injection h with h2
        exact SimError.noConfusion h2
      · injection h with h2
        exact SimError.noConfusion h2
    | ok rep3 =>
      exact ih rep3 (hday.2 rep3 hs)

/-- Claim C1: for every random stream (any `binom` and any generator
state), every horizon and every replication whose compartments hold the
total population `sum(N)`, `simulate_time_period` never aborts through the
population-conservation assertion nor through the vaccination-flow
assertion, and whenever it completes, the sum of the S, E, IA, IY, PA, PY,
IH, ICU, R, D compartments over all four vaccine groups still equals
`sum(N)` exactly (hence within the `1e-2` tolerance) — after every simulated
day, since the horizon is arbitrary. -/
theorem claim1_population_conservation {σ ε : Type} {A L : ℕ}
    (binom : BinomFn σ A L) (city : City A L σ ε) (time_end : ℕ)
    (rep : Replication A L σ ε)
    (hbal : totalPop rep.vaccine_groups = gridTotal city.N) :
    simulate_time_period binom city time_end rep ≠ .error .popImbalance ∧
    simulate_time_period binom city time_end rep ≠ .error .flowImbalance ∧
    ∀ rep2, simulate_time_period binom city time_end rep = .ok rep2 →
      totalPop rep2.vaccine_groups = gridTotal city.N := by
  have h := simulate_time_period_aux_conservation binom city
    (time_end - rep.next_t) rep hbal
  exact ⟨h.1, h.2.1, h.2.2⟩

/-- Witness for C1: the concrete test replication is balanced and one full
simulated day preserves the total population of 100. -/
theorem claim1_witness :
    totalPop rep0.vaccine_groups = gridTotal city0.N ∧
      (simulate_time_period binom0 city0 1 rep0 ≠ .error .popImbalance ∧
       simulate_time_period binom0 city0 1 rep0 ≠ .error .flowImbalance ∧
       ∀ rep2, simulate_time_period binom0 city0 1 rep0 = .ok rep2 →
         totalPop rep2.vaccine_groups = gridTotal city0.N) :=
  ⟨by with_unfolding_all decide,
    claim1_population_conservation binom0 city0 1 rep0 (by with_unfolding_all decide)⟩

/-- Claim C2: the vaccination-flow redistribution pass conserves the total
Susceptible mass across the four vaccine groups exactly — for every day,
every dose-allocation schedule (assignments, eligibilities and event
calendar are arbitrary fields of `city`) and every immune-evasion rate —
so the difference is far below the `1e-2` assertion tolerance. -/
theorem claim2_vaccination_flow_conserves_S {σ ε : Type} {A L : ℕ}
    (city : City A L σ ε) (t : ℕ) (rimm : ℚ) (S : Fin 4 → Grid A L) :
    (∑ g, gridTotal (vaccine_flow_S city t rimm S g)) = ∑ g, gridTotal (S g) ∧
    |(∑ g, gridTotal (S g)) - ∑ g, gridTotal (vaccine_flow_S city t rimm S g)| <
      1 / 100 := by
  have h := vaccine_flow_S_total city t rimm S
  refine ⟨h, ?_⟩
  rw [h, sub_self, abs_zero]
  norm_num

/-- With no generator attached, the sub-step loop never consults the
sampler, so its final generator state stays `none`. -/
theorem run_substeps_none_snd {σ : Type} {A L : ℕ} (binom : BinomFn σ A L)
    (e : EpiDay A L) (phi : Phi A L) (N : Grid A L) (ss : ℕ) :
    ∀ (k : ℕ) (st : Fin 4 → GroupState A L),
      (run_substeps binom e phi N ss k (st, none)).2 = none := by
  intro k
  induction k with
  | zero => intro st; rfl
  | succ k ih =>
    intro st
    simp only [run_substeps]
    exact ih (substep binom e phi N ss st none).1

/-- With no generator attached, the sub-step loop does not depend on the
sampler at all. -/
theorem run_substeps_none {σ : Type} {A L : ℕ} (binom1 binom2 : BinomFn σ A L)
    (e : EpiDay A L) (phi : Phi A L) (N : Grid A L) (ss : ℕ) :
    ∀ (k : ℕ) (st : Fin 4 → GroupState A L),
      run_substeps binom1 e phi N ss k (st, none) =
        run_substeps binom2 e phi N ss k (st, none) := by
  intro k
  induction k with
  | zero => intro st; rfl
  | succ k ih =>
    intro st
    simp only [run_substeps]
    exact ih (substep binom1 e phi N ss st none).1

/-- With no generator attached, one simulated day does not depend on the
sampler. -/
theorem simulate_t_rng_none {σ ε : Type} {A L : ℕ} (binom1 binom2 : BinomFn σ A L)
    (city : City A L σ ε) (rep : Replication A L σ ε) (t : ℕ)
    (h : rep.rng = none) :
    simulate_t binom1 city rep t = simulate_t binom2 city rep t := by
  cases hpp : day_phi_policy city rep t with
  | error e2 => simp only [simulate_t, hpp]
  | ok pp =>
    obtain ⟨phi, policy2⟩ := pp
    simp only [simulate_t, hpp, h]
    rw [run_substeps_none binom1 binom2 (city.effectiveEpi rep.epi_rand t) phi city.N
      city.step_size city.step_size (fun g => zero_tracking (rep.vaccine_groups g))]

/-- A day simulated without a generator leaves the generator absent. -/
theorem simulate_t_rng_preserved {σ ε : Type} {A L : ℕ} (binom : BinomFn σ A L)
    (city : City A L σ ε) (rep : Replication A L σ ε) (t : ℕ)
    (rep2 : Replication A L σ ε) (hrng : rep.rng = none)
    (h : simulate_t binom city rep t = .ok rep2) : rep2.rng = none := by
  cases hpp : day_phi_policy city rep t with
  | error e2 =>
    simp only [simulate_t, hpp] at h
    exact Except.noConfusion h
  | ok pp =>
    obtain ⟨phi, policy2⟩ := pp
    simp only [simulate_t, hpp, hrng] at h
    by_cases hvs : city.vaccine_start_time ≤ t
    · rw [if_pos hvs] at h
      split at h
      · injection h with h2
        rw [← h2]
        exact run_substeps_none_snd binom _ phi city.N city.step_size city.step_size
          (fun g => zero_tracking (rep.vaccine_groups g))
      · exact Except.noConfusion h
    · rw [if_neg hvs] at h
      injection h with h2
      rw [← h2]
      exact run_substeps_none_snd binom _ phi city.N city.step_size city.step_size
        (fun g => zero_tracking (rep.vaccine_groups g))

/-- With no generator attached, one loop iteration of the daily driver does
not depend on the sampler. -/
theorem simulate_day_rng_none {σ ε : Type} {A L : ℕ} (binom1 binom2 : BinomFn σ A L)
    (city : City A L σ ε) (rep : Replication A L σ ε) (h : rep.rng = none) :
    simulate_day binom1 city rep = simulate_day binom2 city rep := by
  have hstep := simulate_t_rng_none binom1 binom2 city
    { rep with next_t := rep.next_t + 1 } rep.next_t h
  simp only [simulate_day]
  rw [hstep]

/-- One loop iteration simulated without a generator leaves the generator
absent. -/
theorem simulate_day_rng_preserved {σ ε : Type} {A L : ℕ} (binom : BinomFn σ A L)
    (city : City A L σ ε) (rep rep3 : Replication A L σ ε)
    (hrng : rep.rng = none) (h : simulate_day binom city rep = .ok rep3) :
    rep3.rng = none := by
  cases hs : simulate_t binom city { rep with next_t := rep.next_t + 1 } rep.next_t with
  | error err =>
    simp only [simulate_day, hs] at h
    exact Except.noConfusion h
  | ok rep2 =>
    have h2 : rep2.rng = none := simulate_t_rng_preserved binom city
      { rep with next_t := rep.next_t + 1 } rep.next_t rep2 hrng hs
    simp only [simulate_day, hs] at h
    split at h
    · injection h with h3
      rw [← h3]
      exact h2
    · exact Except.noConfusion h

/-- With no generator attached, the whole daily loop does not depend on the
sampler. -/
theorem simulate_time_period_aux_rng_none {σ ε : Type} {A L : ℕ}
    (binom1 binom2 : BinomFn σ A L) (city : City A L σ ε) :
    ∀ (k : ℕ) (rep : Replication A L σ ε), rep.rng = none →
      simulate_time_period_aux binom1 city k rep =
        simulate_time_period_aux binom2 city k rep := by
  intro k
  induction k with
  | zero => intro rep h; rfl
  | succ k ih =>
    intro rep h
    simp only [simulate_time_period_aux]
    rw [simulate_day_rng_none binom1 binom2 city rep h]
    cases hs : simulate_day binom2 city rep with
    | error err => rfl
    | ok rep3 =>
      exact ih rep3 (simulate_day_rng_preserved binom2 city rep rep3 h hs)

/-- Claim C6: with no random generator attached, every transition quantity
is the deterministic expectation `n * p`, and the whole simulation — all
compartment trajectories, tracking counters and histories — is a pure
function of its inputs that does not depend on the sampler: two runs from
identical inputs (here, with arbitrary distinct samplers) produce
value-for-value identical replications. -/
theorem claim6_deterministic_without_rng {σ ε : Type} {A L : ℕ}
    (binom1 binom2 : BinomFn σ A L) (city : City A L σ ε) (time_end : ℕ)
    (rep : Replication A L σ ε) :
    (∀ n p : Grid A L, (get_binomial_transition_quantity binom1 none n p).1 =
      fun a l => n a l * p a l) ∧
    simulate_time_period binom1 city time_end { rep with rng := none } =
      simulate_time_period binom2 city time_end { rep with rng := none } := by
  refine ⟨fun n p => rfl, ?_⟩
  unfold simulate_time_period
  exact simulate_time_period_aux_rng_none binom1 binom2 city _ _ rfl

/-- Four sequential competing draws, each taken from the count remaining
after the previous ones with a probability in `[0, 1]`, never withdraw more
than the starting count. -/
theorem chain4_outflow_le (c r1 r2 r3 r4 : ℚ) (hc : 0 ≤ c)
    (_h1 : 0 ≤ r1) (h1' : r1 ≤ 1) (_h2 : 0 ≤ r2) (h2' : r2 ≤ 1)
    (_h3 : 0 ≤ r3) (h3' : r3 ≤ 1) (_h4 : 0 ≤ r4) (h4' : r4 ≤ 1) :
    c * r1 + (c - c * r1) * r2 + (c - c * r1 - (c - c * r1) * r2) * r3 +
      (c - c * r1 - (c - c * r1) * r2 -
        (c - c * r1 - (c - c * r1) * r2) * r3) * r4 ≤ c := by
  have a1 : 0 ≤ c * (1 - r1) := mul_nonneg hc (by linarith)
  have a2 : 0 ≤ c * (1 - r1) * (1 - r2) := mul_nonneg a1 (by linarith)
  have a3 : 0 ≤ c * (1 - r1) * (1 - r2) * (1 - r3) := mul_nonneg a2 (by linarith)
  have a4 : 0 ≤ c * (1 - r1) * (1 - r2) * (1 - r3) * (1 - r4) := mul_nonneg a3 (by linarith)
  nlinarith [a4]

/-- Two sequential competing draws, the second taken from the count
remaining after the first, never withdraw more than the starting count. -/
theorem chain2_outflow_le (c r1 r2 : ℚ) (hc : 0 ≤ c)
    (_h1 : 0 ≤ r1) (h1' : r1 ≤ 1) (_h2 : 0 ≤ r2) (h2' : r2 ≤ 1) :
    c * r1 + (c - c * r1) * r2 ≤ c := by
  have a1 : 0 ≤ c * (1 - r1) := mul_nonneg hc (by linarith)
  have a2 : 0 ≤ c * (1 - r1) * (1 - r2) := mul_nonneg a1 (by linarith)
  nlinarith [a2]

/-- Claim C7: in deterministic mode the engine draws the competing exits of
`IY` sequentially — recovery from `IY`, death from `IY` minus recoveries,
hospitalisation from the remainder, ICU admission from what is then left —
and likewise `IH → ICU` from `IH` minus its recoveries and ICU death from
`ICU` minus its recoveries (the first four conjuncts tie the engine's
tracking updates to these quantities, the next five state each draw's
conditioning on the remaining count); consequently, with transition
probabilities in `[0, 1]` and a non-negative compartment count, the total
outflow of a compartment within one sub-step never exceeds its count. -/
theorem claim7_sequential_competing_exits {σ : Type} {A L : ℕ}
    (binom : BinomFn σ A L) (e : EpiDay A L) (p : GroupParams A L)
    (dSp : Grid A L) (imm : Bool) (s : GroupState A L) (a : Fin A) (l : Fin L) :
    ((processGroup binom e p dSp imm s none).1.IYIH a l =
        s.IYIH a l + IYIH_det p s a l) ∧
    ((processGroup binom e p dSp imm s none).1.IYICU a l =
        s.IYICU a l + IYICU_det p s a l) ∧
    ((processGroup binom e p dSp imm s none).1.IHICU a l =
        s.IHICU a l + IHICU_det e s a l) ∧
    ((processGroup binom e p dSp imm s none).1.D a l =
        s.D a l + ICUD_det e s a l + IYD_det p s a l) ∧
    (IYD_det p s a l = (s.IY a l - IYR_det p s a l) * p.rate_IYD a l) ∧
    (IYIH_det p s a l =
      (s.IY a l - IYR_det p s a l - IYD_det p s a l) * p.rate_IYH a l) ∧
    (IYICU_det p s a l =
      (s.IY a l - IYR_det p s a l - IYD_det p s a l - IYIH_det p s a l) *
        p.rate_IYICU a l) ∧
    (IHICU_det e s a l = (s.IH a l - IHR_det e s a l) * e.rate_IHICU a l) ∧
    (ICUD_det e s a l = (s.ICU a l - ICUR_det e s a l) * e.rate_ICUD a l) ∧
    (0 ≤ s.IY a l → 0 ≤ p.rate_IYR a l → p.rate_IYR a l ≤ 1 →
      0 ≤ p.rate_IYD a l → p.rate_IYD a l ≤ 1 →
      0 ≤ p.rate_IYH a l → p.rate_IYH a l ≤ 1 →
      0 ≤ p.rate_IYICU a l → p.rate_IYICU a l ≤ 1 →
      IYR_det p s a l + IYD_det p s a l + IYIH_det p s a l + IYICU_det p s a l ≤
        s.IY a l) ∧
    (0 ≤ s.IH a l → 0 ≤ e.rate_IHR a l → e.rate_IHR a l ≤ 1 →
      0 ≤ e.rate_IHICU a l → e.rate_IHICU a l ≤ 1 →
      IHR_det e s a l + IHICU_det e s a l ≤ s.IH a l) ∧
    (0 ≤ s.ICU a l → 0 ≤ e.rate_ICUR a l → e.rate_ICUR a l ≤ 1 →
      0 ≤ e.rate_ICUD a l → e.rate_ICUD a l ≤ 1 →
      ICUR_det e s a l + ICUD_det e s a l ≤ s.ICU a l) := by
  refine ⟨rfl, rfl, rfl, rfl, rfl, rfl, rfl, rfl, rfl, ?_, ?_, ?_⟩
  · intro hc h1 h1' h2 h2' h3 h3' h4 h4'
    simp only [IYR_det, IYD_det, IYIH_det, IYICU_det]
    exact chain4_outflow_le (s.IY a l) (p.rate_IYR a l) (p.rate_IYD a l)
      (p.rate_IYH a l) (p.rate_IYICU a l) hc h1 h1' h2 h2' h3 h3' h4 h4'
  · intro hc h1 h1' h2 h2'
    simp only [IHR_det, IHICU_det]
    exact chain2_outflow_le (s.IH a l) (e.rate_IHR a l) (e.rate_IHICU a l)
      hc h1 h1' h2 h2'
  · intro hc h1 h1' h2 h2'
    simp only [ICUR_det, ICUD_det]
    exact chain2_outflow_le (s.ICU a l) (e.rate_ICUR a l) (e.rate_ICUD a l)
      hc h1 h1' h2 h2'

/-- Witness for C7 at concrete counts (16 in `IY`, 4 in `IH`, 2 in `ICU`)
and one-half probabilities: the chained outflows stay below the counts, and
the engine's tracking update matches the chained draw. -/
theorem claim7_witness :
    ((0:ℚ) ≤ s7.IY 0 0 ∧ (0:ℚ) ≤ p7.rate_IYR 0 0 ∧ p7.rate_IYR 0 0 ≤ 1) ∧
    (IYR_det p7 s7 0 0 + IYD_det p7 s7 0 0 + IYIH_det p7 s7 0 0 +
      IYICU_det p7 s7 0 0 ≤ s7.IY 0 0) ∧
    (IHR_det e7 s7 0 0 + IHICU_det e7 s7 0 0 ≤ s7.IH 0 0) ∧
    (ICUR_det e7 s7 0 0 + ICUD_det e7 s7 0 0 ≤ s7.ICU 0 0) ∧
    (processGroup binom0 e7 p7 (gridC 0) false s7 none).1.IYIH 0 0 =
      s7.IYIH 0 0 + IYIH_det p7 s7 0 0 := by
  have h := claim7_sequential_competing_exits binom0 e7 p7 (gridC 0) false s7 0 0
  refine ⟨by with_unfolding_all decide, ?_, ?_, ?_, h.1⟩
  · exact h.2.2.2.2.2.2.2.2.2.1 (by with_unfolding_all decide)
      (by with_unfolding_all decide) (by with_unfolding_all decide)
      (by with_unfolding_all decide) (by with_unfolding_all decide)
      (by with_unfolding_all decide) (by with_unfolding_all decide)
      (by with_unfolding_all decide) (by with_unfolding_all decide)
  · exact h.2.2.2.2.2.2.2.2.2.2.1 (by with_unfolding_all decide)
      (by with_unfolding_all decide) (by with_unfolding_all decide)
      (by with_unfolding_all decide) (by with_unfolding_all decide)
  · exact h.2.2.2.2.2.2.2.2.2.2.2 (by with_unfolding_all decide)
      (by with_unfolding_all decide) (by with_unfolding_all decide)
      (by with_unfolding_all decide) (by with_unfolding_all decide)

/-- Claim C8 as amended: `reset` restores every vaccine group to the exact
initial conditions used at construction, empties every history list and
sets `next_t` to 0, while leaving `epi_rand` and the generator unchanged —
but it does NOT touch the attached policy, whose tier history survives the
reset (the caller clears it separately through the policy's own reset). -/
theorem claim8_amended_reset {σ ε : Type} {A L : ℕ} (city : City A L σ ε)
    (rep : Replication A L σ ε) (pol : Option MultiTierPolicy)
    (seed : Option ℤ) (mkGen : ℤ → σ) :
    (SimReplication_reset city rep).vaccine_groups = init_vaccine_groups city ∧
    (SimReplication_reset city rep).vaccine_groups =
      (SimReplication_init city pol seed mkGen).vaccine_groups ∧
    (SimReplication_reset city rep).ICU_history = [] ∧
    (SimReplication_reset city rep).IH_history = [] ∧
    (SimReplication_reset city rep).D_history = [] ∧
    (SimReplication_reset city rep).R_history = [] ∧
    (SimReplication_reset city rep).ToIHT_history = [] ∧
    (SimReplication_reset city rep).ToIY_history = [] ∧
    (SimReplication_reset city rep).ToICUD_history = [] ∧
    (SimReplication_reset city rep).ToIYD_history = [] ∧
    (SimReplication_reset city rep).next_t = 0 ∧
    (SimReplication_reset city rep).policy = rep.policy ∧
    (SimReplication_reset city rep).epi_rand = rep.epi_rand ∧
    (SimReplication_reset city rep).rng = rep.rng :=
  ⟨rfl, rfl, rfl, rfl, rfl, rfl, rfl, rfl, rfl, rfl, rfl, rfl, rfl, rfl⟩

set_option maxRecDepth 100000 in
/-- Counterexample for C8 as frozen: after one simulated day of the
concrete replication the attached policy's tier history is `[0]`, and
`reset` leaves it `[0]` — it does not clear it to empty. -/
theorem claim8_counterexample :
    (simulate_time_period binom0 city0 1 rep0).toOption.map
      (fun r => (SimReplication_reset city0 r).policy.map
        (fun p => p.tier_history)) = some (some [0]) ∧
    ([0] : List ℕ) ≠ [] :=
  ⟨by with_unfolding_all decide, by decide⟩
